import Mathlib

/-!
Verification of `src/caffe/layers/cudnn_conv_layer.cpp` (caffe's cuDNN
convolution layer wrapper), non-frontend path.

The vendor library (cuDNN) and the CUDA runtime are opaque: we model them
as an environment `CudnnEnv` supplying the results of every vendor query
(`cudnnGetConvolution*Algorithm*`, `cudaMemGetInfo`, `cudaMalloc`,
`cudaStreamCreate`, `cudnnCreate`).  Pointers are modelled as natural
addresses with `0` playing the role of `NULL`; pointer arithmetic
`(char*)p + k` becomes `p + k`.  The layer's fields set up by the base
`ConvolutionLayer` (an external collaborator) are grouped into
`BaseConfig`; the fields owned by the cuDNN layer itself form
`CuDNNConvState`.  Raw `new[]` arrays are modelled as functions
`Nat → Nat` updated pointwise on the loop ranges the code writes;
`std::vector` members (the descriptor vectors, which know their size) are
modelled as lists.
-/

namespace Caffe

/-- `#define CUDNN_STREAMS_PER_GROUP 1` (line 12 of the source). -/
def CUDNN_STREAMS_PER_GROUP : Nat := 1

/-- cuDNN status code for success. -/
def CUDNN_STATUS_SUCCESS : Nat := 0

/-- cuDNN forward algorithm enum values used by the source. -/
def CUDNN_CONVOLUTION_FWD_ALGO_IMPLICIT_GEMM : Nat := 0

/-- cuDNN forward Winograd-nonfused algorithm enum value. -/
def CUDNN_CONVOLUTION_FWD_ALGO_WINOGRAD_NONFUSED : Nat := 7

/-- cuDNN backward-data algorithm 0 enum value. -/
def CUDNN_CONVOLUTION_BWD_DATA_ALGO_0 : Nat := 0

/-- cuDNN backward-data Winograd algorithm enum value. -/
def CUDNN_CONVOLUTION_BWD_DATA_ALGO_WINOGRAD : Nat := 4

/-- cuDNN backward-data Winograd-nonfused algorithm enum value. -/
def CUDNN_CONVOLUTION_BWD_DATA_ALGO_WINOGRAD_NONFUSED : Nat := 5

/-- cuDNN backward-filter algorithm 0 enum value. -/
def CUDNN_CONVOLUTION_BWD_FILTER_ALGO_0 : Nat := 0

/-- cuDNN backward-filter algorithm 1 enum value. -/
def CUDNN_CONVOLUTION_BWD_FILTER_ALGO_1 : Nat := 1

/-- `size_t workspace_limit_bytes = 8*1024*1024` (pre-cuDNN-8 Reshape path). -/
def workspace_limit_bytes : Nat := 8 * 1024 * 1024

/-- One entry of a `cudnnConvolution*AlgoPerf_t` preference array returned by
the vendor's v7 heuristic queries: a status, an algorithm id and the scratch
memory the algorithm needs. -/
structure AlgoPerf where
  status : Nat
  algo : Nat
  memory : Nat
  deriving DecidableEq

/-- A cuDNN 4d tensor descriptor as filled by `cudnnSetTensor4dDescriptorEx`:
four extents and four strides. -/
structure Tensor4dDesc where
  n : Nat
  c : Nat
  h : Nat
  w : Nat
  nStride : Nat
  cStride : Nat
  hStride : Nat
  wStride : Nat
  deriving DecidableEq, Inhabited

/-- A cuDNN filter descriptor: output channels, input channels, kernel
height and width (`cudnn::createFilterDesc`). -/
structure FilterDesc where
  k : Nat
  c : Nat
  h : Nat
  w : Nat
  deriving DecidableEq, Inhabited

/-- A cuDNN convolution descriptor: pads and strides
(`cudnn::setConvolutionDesc`). -/
structure ConvDesc where
  pad_h : Nat
  pad_w : Nat
  stride_h : Nat
  stride_w : Nat
  deriving DecidableEq, Inhabited

/-- Modelled from the spec: `cudnn::setTensor4dDesc` without explicit strides
(declared in `caffe/util/cudnn.hpp`, which is outside `src/`) describes a
fully-packed NCHW tensor, i.e. strides `(c*h*w, h*w, w, 1)`.  Only the bias
descriptor uses this overload and no claim depends on its strides. -/
def setTensor4dDescPacked (n c h w : Nat) : Tensor4dDesc :=
  ⟨n, c, h, w, c * h * w, h * w, w, 1⟩

/-- The opaque vendor library and CUDA runtime: results of every query the
layer makes.  `free_memory`/`total_memory` model `cudaMemGetInfo`;
`fwdAlgoPref`/`bwdDataAlgoPref` are the preference-ordered lists the v7
heuristic queries would return (per bottom index); the
`getConvolution*Algorithm`/`WorkspaceSize` fields model the pre-cuDNN-8
query API (per bottom index and workspace limit, resp. algorithm);
`bwdFilterAlgoPref` is the vendor's backward-filter heuristic preference,
available from the vendor but (as we prove) never consulted by the
cuDNN-8 path; `cudaMalloc` maps a size to `some base` on success and
`none` on failure; `streamCreate`/`cudnnCreate` yield the handle ids for
the g-th creation call. -/
structure CudnnEnv where
  free_memory : Nat
  total_memory : Nat
  fwdAlgoPref : Nat → List AlgoPerf
  bwdDataAlgoPref : Nat → List AlgoPerf
  bwdFilterAlgoPref : Nat → List AlgoPerf
  getConvolutionForwardAlgorithm : Nat → Nat → Nat
  getConvolutionForwardWorkspaceSize : Nat → Nat → Nat
  getConvolutionBackwardFilterAlgorithm : Nat → Nat → Nat
  getConvolutionBackwardFilterWorkspaceSize : Nat → Nat → Nat
  getConvolutionBackwardDataAlgorithm : Nat → Nat → Nat
  getConvolutionBackwardDataWorkspaceSize : Nat → Nat → Nat
  cudaMalloc : Nat → Option Nat
  streamCreate : Nat → Nat
  cudnnCreate : Nat → Nat

/-- Fields of the layer owned by the base `ConvolutionLayer` (set up by the
inherited `LayerSetUp`/`Reshape`, which are external to this file's code):
group count, channel counts, batch size, dimensions and the configured
kernel/pad/stride (2 spatial axes). -/
structure BaseConfig where
  group_ : Nat
  num_output_ : Nat
  channels_ : Nat
  bias_term_ : Bool
  num_ : Nat
  num_spatial_axes_ : Nat
  bottom_dim_ : Nat
  top_dim_ : Nat
  out_spatial_dim_ : Nat
  kernel_h : Nat
  kernel_w : Nat
  pad_h : Nat
  pad_w : Nat
  stride_h : Nat
  stride_w : Nat

/-- The state owned by `CuDNNConvolutionLayer` (non-frontend branch).
The raw `new[]` arrays (`fwd_algo_`, the size arrays, `workspace`) are
functions from the index; the `std::vector` descriptor members are lists;
`stream_`/`handle_` are the lists of created stream/handle ids and
`handleStream` records the `cudnnSetStream` association. -/
structure CuDNNConvState where
  fwd_algo_ : Nat → Nat
  bwd_filter_algo_ : Nat → Nat
  bwd_data_algo_ : Nat → Nat
  workspace_fwd_sizes_ : Nat → Nat
  workspace_bwd_filter_sizes_ : Nat → Nat
  workspace_bwd_data_sizes_ : Nat → Nat
  workspaceSizeInBytes : Nat
  workspaceData : Nat
  workspace : Nat → Nat
  stream_ : List Nat
  handle_ : List Nat
  handleStream : List (Nat × Nat)
  bias_offset_ : Nat
  handles_setup_ : Bool
  bottom_descs_ : List Tensor4dDesc
  top_descs_ : List Tensor4dDesc
  conv_descs_ : List ConvDesc
  filter_desc_ : FilterDesc
  bias_desc_ : Tensor4dDesc
  bottom_offset_ : Nat
  top_offset_ : Nat

/-- `CuDNNConvolutionLayer::LayerSetUp` (non-frontend branch, lines 17-107):
allocates `group_ * CUDNN_STREAMS_PER_GROUP` streams and handles binding
handle g to stream g, zero-initializes the per-input algorithm and size
arrays and the per-group workspace pointers, sets
`bias_offset_ = num_output_ / group_`, creates the filter descriptor with
per-group channel counts, creates (unset) per-input tensor/convolution
descriptors, and marks `handles_setup_`.  `B` is `bottom.size()`. -/
def layerSetUp (env : CudnnEnv) (cfg : BaseConfig) (B : Nat) : CuDNNConvState :=
  let G := cfg.group_ * CUDNN_STREAMS_PER_GROUP
  { fwd_algo_ := fun _ => 0
    bwd_filter_algo_ := fun _ => 0
    bwd_data_algo_ := fun _ => 0
    workspace_fwd_sizes_ := fun _ => 0
    workspace_bwd_filter_sizes_ := fun _ => 0
    workspace_bwd_data_sizes_ := fun _ => 0
    workspaceSizeInBytes := 0
    workspaceData := 0
    workspace := fun _ => 0
    stream_ := (List.range G).map env.streamCreate
    handle_ := (List.range G).map env.cudnnCreate
    handleStream := (List.range G).map fun g => (env.cudnnCreate g, env.streamCreate g)
    bias_offset_ := cfg.num_output_ / cfg.group_
    handles_setup_ := true
    bottom_descs_ := List.replicate B default
    top_descs_ := List.replicate B default
    conv_descs_ := List.replicate B default
    filter_desc_ :=
      ⟨cfg.num_output_ / cfg.group_, cfg.channels_ / cfg.group_,
       cfg.kernel_h, cfg.kernel_w⟩
    bias_desc_ := default
    bottom_offset_ := 0
    top_offset_ := 0 }

/-- The bottom tensor descriptor set in `Reshape` (lines 186-190):
shape `(num_, channels_/group_, height, width)` with strides derived from
the full channel count. -/
def mkBottomDesc (cfg : BaseConfig) (height width : Nat) : Tensor4dDesc :=
  ⟨cfg.num_, cfg.channels_ / cfg.group_, height, width,
   cfg.channels_ * height * width, height * width, width, 1⟩

/-- The top tensor descriptor set in `Reshape` (lines 191-195). -/
def mkTopDesc (cfg : BaseConfig) (height_out width_out : Nat) : Tensor4dDesc :=
  ⟨cfg.num_, cfg.num_output_ / cfg.group_, height_out, width_out,
   cfg.num_output_ * cfg.out_spatial_dim_, cfg.out_spatial_dim_, width_out, 1⟩

/-- The convolution descriptor set in `Reshape` (lines 196-197). -/
def mkConvDesc (cfg : BaseConfig) : ConvDesc :=
  ⟨cfg.pad_h, cfg.pad_w, cfg.stride_h, cfg.stride_w⟩

/-- Overwrite the first `n` elements of a list with `v`: the effect of the
per-input loop writing the same descriptor value at every index `i < n`. -/
def setFirst {α : Type} : Nat → α → List α → List α
  | _, _, [] => []
  | 0, _, l => l
  | n + 1, v, _ :: t => v :: setFirst n v t

/-- The forward-algorithm acceptance test of the cuDNN-8 Reshape path
(lines 211-213): success status, not Winograd-nonfused, memory strictly
below the free GPU memory. -/
def fwdOk (free : Nat) (p : AlgoPerf) : Bool :=
  p.status == CUDNN_STATUS_SUCCESS &&
  p.algo != CUDNN_CONVOLUTION_FWD_ALGO_WINOGRAD_NONFUSED &&
  decide (p.memory < free)

/-- The backward-data acceptance test of the cuDNN-8 Reshape path
(lines 241-244). -/
def bwdDataOk (free : Nat) (p : AlgoPerf) : Bool :=
  p.status == CUDNN_STATUS_SUCCESS &&
  p.algo != CUDNN_CONVOLUTION_BWD_DATA_ALGO_WINOGRAD &&
  p.algo != CUDNN_CONVOLUTION_BWD_DATA_ALGO_WINOGRAD_NONFUSED &&
  decide (p.memory < free)

/-- `fwdOk` as a proposition: success status, not the forward
Winograd-nonfused algorithm, memory strictly below the free GPU memory. -/
def FwdAcceptable (free : Nat) (p : AlgoPerf) : Prop :=
  p.status = CUDNN_STATUS_SUCCESS ∧
  p.algo ≠ CUDNN_CONVOLUTION_FWD_ALGO_WINOGRAD_NONFUSED ∧
  p.memory < free

/-- `bwdDataOk` as a proposition. -/
def BwdDataAcceptable (free : Nat) (p : AlgoPerf) : Prop :=
  p.status = CUDNN_STATUS_SUCCESS ∧
  p.algo ≠ CUDNN_CONVOLUTION_BWD_DATA_ALGO_WINOGRAD ∧
  p.algo ≠ CUDNN_CONVOLUTION_BWD_DATA_ALGO_WINOGRAD_NONFUSED ∧
  p.memory < free

instance (free : Nat) (p : AlgoPerf) : Decidable (FwdAcceptable free p) :=
  inferInstanceAs (Decidable (p.status = CUDNN_STATUS_SUCCESS ∧
    p.algo ≠ CUDNN_CONVOLUTION_FWD_ALGO_WINOGRAD_NONFUSED ∧ p.memory < free))

instance (free : Nat) (p : AlgoPerf) : Decidable (BwdDataAcceptable free p) :=
  inferInstanceAs (Decidable (p.status = CUDNN_STATUS_SUCCESS ∧
    p.algo ≠ CUDNN_CONVOLUTION_BWD_DATA_ALGO_WINOGRAD ∧
    p.algo ≠ CUDNN_CONVOLUTION_BWD_DATA_ALGO_WINOGRAD_NONFUSED ∧
    p.memory < free))

/-- The first acceptable entry of the (at most 4 returned) forward
preference list for bottom index `i`, or `none` when no entry qualifies:
the loop at lines 209-219. -/
def fwdChoice (env : CudnnEnv) (i : Nat) : Option AlgoPerf :=
  ((env.fwdAlgoPref i).take 4).find? (fwdOk env.free_memory)

/-- The first acceptable entry of the backward-data preference list for
bottom index `i` (loop at lines 239-250). -/
def bwdDataChoice (env : CudnnEnv) (i : Nat) : Option AlgoPerf :=
  ((env.bwdDataAlgoPref i).take 4).find? (bwdDataOk env.free_memory)

/-- The per-input descriptor setting shared by both Reshape paths
(lines 185-197): for every `i < B` set bottom/top/conv descriptors. -/
def setDescriptors (cfg : BaseConfig) (B : Nat)
    (height width height_out width_out : Nat)
    (s : CuDNNConvState) : CuDNNConvState :=
  { s with
    bottom_descs_ := setFirst B (mkBottomDesc cfg height width) s.bottom_descs_
    top_descs_ := setFirst B (mkTopDesc cfg height_out width_out) s.top_descs_
    conv_descs_ := setFirst B (mkConvDesc cfg) s.conv_descs_ }

/-- The algorithm-selection part of the cuDNN-8 (non-frontend) Reshape loop
(lines 200-254), for every `i < B`: the forward algorithm/size come from the
first acceptable entry of the vendor's v7 forward preference list (left
unchanged when none qualifies); on forward success the backward-filter
algorithm is fixed to `CUDNN_CONVOLUTION_BWD_FILTER_ALGO_1` with twice the
forward workspace; the backward-data pair comes from the first acceptable
entry of the backward-data preference list. -/
def selectAlgoV8 (env : CudnnEnv) (B : Nat) (s : CuDNNConvState) :
    CuDNNConvState :=
  { s with
    fwd_algo_ := fun i =>
      if i < B then
        match fwdChoice env i with
        | some p => p.algo
        | none => s.fwd_algo_ i
      else s.fwd_algo_ i
    workspace_fwd_sizes_ := fun i =>
      if i < B then
        match fwdChoice env i with
        | some p => p.memory
        | none => s.workspace_fwd_sizes_ i
      else s.workspace_fwd_sizes_ i
    bwd_filter_algo_ := fun i =>
      if i < B then
        match fwdChoice env i with
        | some _ => CUDNN_CONVOLUTION_BWD_FILTER_ALGO_1
        | none => s.bwd_filter_algo_ i
      else s.bwd_filter_algo_ i
    workspace_bwd_filter_sizes_ := fun i =>
      if i < B then
        match fwdChoice env i with
        | some p => 2 * p.memory
        | none => s.workspace_bwd_filter_sizes_ i
      else s.workspace_bwd_filter_sizes_ i
    bwd_data_algo_ := fun i =>
      if i < B then
        match bwdDataChoice env i with
        | some p => p.algo
        | none => s.bwd_data_algo_ i
      else s.bwd_data_algo_ i
    workspace_bwd_data_sizes_ := fun i =>
      if i < B then
        match bwdDataChoice env i with
        | some p => p.memory
        | none => s.workspace_bwd_data_sizes_ i
      else s.workspace_bwd_data_sizes_ i }

/-- The algorithm-selection part of the pre-cuDNN-8 Reshape loop
(lines 256-294), for every `i < B`: each of the three algorithms is the
vendor's answer to the corresponding `cudnnGetConvolution*Algorithm` query
under the fixed 8 MiB workspace limit, and each size is the vendor's
reported workspace size for that algorithm. -/
def selectAlgoV7 (env : CudnnEnv) (B : Nat) (s : CuDNNConvState) :
    CuDNNConvState :=
  { s with
    fwd_algo_ := fun i =>
      if i < B then env.getConvolutionForwardAlgorithm i workspace_limit_bytes
      else s.fwd_algo_ i
    workspace_fwd_sizes_ := fun i =>
      if i < B then
        env.getConvolutionForwardWorkspaceSize i
          (env.getConvolutionForwardAlgorithm i workspace_limit_bytes)
      else s.workspace_fwd_sizes_ i
    bwd_filter_algo_ := fun i =>
      if i < B then
        env.getConvolutionBackwardFilterAlgorithm i workspace_limit_bytes
      else s.bwd_filter_algo_ i
    workspace_bwd_filter_sizes_ := fun i =>
      if i < B then
        env.getConvolutionBackwardFilterWorkspaceSize i
          (env.getConvolutionBackwardFilterAlgorithm i workspace_limit_bytes)
      else s.workspace_bwd_filter_sizes_ i
    bwd_data_algo_ := fun i =>
      if i < B then
        env.getConvolutionBackwardDataAlgorithm i workspace_limit_bytes
      else s.bwd_data_algo_ i
    workspace_bwd_data_sizes_ := fun i =>
      if i < B then
        env.getConvolutionBackwardDataWorkspaceSize i
          (env.getConvolutionBackwardDataAlgorithm i workspace_limit_bytes)
      else s.workspace_bwd_data_sizes_ i }

/-- `total_workspace_fwd`: running maximum of the forward workspace sizes
over `i < B` (lines 299-310). -/
def totalWorkspaceFwd (B : Nat) (s : CuDNNConvState) : Nat :=
  (List.range B).foldl (fun acc i => max acc (s.workspace_fwd_sizes_ i)) 0

/-- `total_workspace_bwd_data`. -/
def totalWorkspaceBwdData (B : Nat) (s : CuDNNConvState) : Nat :=
  (List.range B).foldl (fun acc i => max acc (s.workspace_bwd_data_sizes_ i)) 0

/-- `total_workspace_bwd_filter`. -/
def totalWorkspaceBwdFilter (B : Nat) (s : CuDNNConvState) : Nat :=
  (List.range B).foldl
    (fun acc i => max acc (s.workspace_bwd_filter_sizes_ i)) 0

/-- `max_workspace`: the maximum over the three per-operation maxima
(lines 312-314). -/
def maxWorkspace (B : Nat) (s : CuDNNConvState) : Nat :=
  max (max (totalWorkspaceFwd B s) (totalWorkspaceBwdData B s))
    (totalWorkspaceBwdFilter B s)

/-- The workspace (re)allocation tail of Reshape (lines 298-352): when
`total_max_workspace = max_workspace * (group_ * CUDNN_STREAMS_PER_GROUP)`
exceeds the current `workspaceSizeInBytes`, the size is bumped, the old
allocation freed and a new one requested; on `cudaMalloc` failure every
algorithm falls back to the zero-workspace default, the per-group pointers
and the base pointer are nulled and the size reset to 0.  The per-group
alias loop (lines 349-351) then runs in either case, offsetting from the
(possibly NULL) base by `g * max_workspace`. -/
def allocateWorkspace (env : CudnnEnv) (cfg : BaseConfig) (B : Nat)
    (s : CuDNNConvState) : CuDNNConvState :=
  let G := cfg.group_ * CUDNN_STREAMS_PER_GROUP
  let max_workspace := maxWorkspace B s
  let total_max_workspace := max_workspace * G
  if s.workspaceSizeInBytes < total_max_workspace then
    let s0 := { s with workspaceSizeInBytes := total_max_workspace }
    let s1 :=
      match env.cudaMalloc total_max_workspace with
      | some base => { s0 with workspaceData := base }
      | none =>
        let sZ := { s0 with
          workspace_fwd_sizes_ := fun i =>
            if i < B then 0 else s0.workspace_fwd_sizes_ i
          workspace_bwd_filter_sizes_ := fun i =>
            if i < B then 0 else s0.workspace_bwd_filter_sizes_ i
          workspace_bwd_data_sizes_ := fun i =>
            if i < B then 0 else s0.workspace_bwd_data_sizes_ i
          fwd_algo_ := fun i =>
            if i < B then CUDNN_CONVOLUTION_FWD_ALGO_IMPLICIT_GEMM
            else s0.fwd_algo_ i
          bwd_filter_algo_ := fun i =>
            if i < B then CUDNN_CONVOLUTION_BWD_FILTER_ALGO_0
            else s0.bwd_filter_algo_ i
          bwd_data_algo_ := fun i =>
            if i < B then CUDNN_CONVOLUTION_BWD_DATA_ALGO_0
            else s0.bwd_data_algo_ i }
        let sN := { sZ with
          workspace := fun g => if g < G then 0 else sZ.workspace g }
        { sN with workspaceData := 0, workspaceSizeInBytes := 0 }
    { s1 with
      workspace := fun g =>
        if g < G then s1.workspaceData + g * max_workspace
        else s1.workspace g }
  else s

/-- The bias descriptor update at the end of Reshape (lines 354-358). -/
def setBiasDesc (cfg : BaseConfig) (s : CuDNNConvState) : CuDNNConvState :=
  if cfg.bias_term_ then
    { s with bias_desc_ := setTensor4dDescPacked 1 (cfg.num_output_ / cfg.group_) 1 1 }
  else s

/-- The part of the cuDNN-8 (non-frontend) Reshape preceding the workspace
allocation: the offsets, the per-input descriptors and the algorithm
selection.  `height`/`width` (`height_out`/`width_out`) are
`bottom[0]`'s (`top[0]`'s) spatial extents. -/
def reshapePreV8 (env : CudnnEnv) (cfg : BaseConfig) (B : Nat)
    (height width height_out width_out : Nat)
    (s : CuDNNConvState) : CuDNNConvState :=
  let s := { s with
    bottom_offset_ := cfg.bottom_dim_ / cfg.group_
    top_offset_ := cfg.top_dim_ / cfg.group_ }
  selectAlgoV8 env B (setDescriptors cfg B height width height_out width_out s)

/-- The whole state transformation of a cuDNN-8 (non-frontend) `Reshape`
call that passes the spatial-axes check. -/
def reshapeBodyV8 (env : CudnnEnv) (cfg : BaseConfig) (B : Nat)
    (height width height_out width_out : Nat)
    (s : CuDNNConvState) : CuDNNConvState :=
  setBiasDesc cfg
    (allocateWorkspace env cfg B
      (reshapePreV8 env cfg B height width height_out width_out s))

/-- The part of the pre-cuDNN-8 Reshape preceding the workspace allocation. -/
def reshapePreV7 (env : CudnnEnv) (cfg : BaseConfig) (B : Nat)
    (height width height_out width_out : Nat)
    (s : CuDNNConvState) : CuDNNConvState :=
  let s := { s with
    bottom_offset_ := cfg.bottom_dim_ / cfg.group_
    top_offset_ := cfg.top_dim_ / cfg.group_ }
  selectAlgoV7 env B (setDescriptors cfg B height width height_out width_out s)

/-- Same for the pre-cuDNN-8 path (vendor query API with workspace limit). -/
def reshapeBodyV7 (env : CudnnEnv) (cfg : BaseConfig) (B : Nat)
    (height width height_out width_out : Nat)
    (s : CuDNNConvState) : CuDNNConvState :=
  setBiasDesc cfg
    (allocateWorkspace env cfg B
      (reshapePreV7 env cfg B height width height_out width_out s))

/-- `CuDNNConvolutionLayer::Reshape`, cuDNN-8 non-frontend path
(lines 109-359): `CHECK_EQ(2, num_spatial_axes_)` aborts the process when
the layer does not have exactly 2 spatial axes (modelled as `Except.error`),
otherwise the body runs. -/
def reshape_v8 (env : CudnnEnv) (cfg : BaseConfig) (B : Nat)
    (height width height_out width_out : Nat)
    (s : CuDNNConvState) : Except Unit CuDNNConvState :=
  if cfg.num_spatial_axes_ = 2 then
    Except.ok (reshapeBodyV8 env cfg B height width height_out width_out s)
  else Except.error ()

/-- `CuDNNConvolutionLayer::Reshape`, pre-cuDNN-8 path. -/
def reshape_v7 (env : CudnnEnv) (cfg : BaseConfig) (B : Nat)
    (height width height_out width_out : Nat)
    (s : CuDNNConvState) : Except Unit CuDNNConvState :=
  if cfg.num_spatial_axes_ = 2 then
    Except.ok (reshapeBodyV7 env cfg B height width height_out width_out s)
  else Except.error ()

/-- The release actions the destructor can perform. -/
inductive Release where
  | destroyBottomDesc : Nat → Release
  | destroyTopDesc : Nat → Release
  | destroyConvDesc : Nat → Release
  | destroyBiasDesc : Release
  | destroyFilterDesc : Release
  | streamDestroy : Nat → Release
  | handleDestroy : Nat → Release
  | freeWorkspaceData : Release
  | deleteStreamArray : Release
  | deleteHandleArray : Release
  | deleteFwdAlgoArray : Release
  | deleteBwdFilterAlgoArray : Release
  | deleteBwdDataAlgoArray : Release
  | deleteWorkspaceFwdSizesArray : Release
  | deleteWorkspaceBwdDataSizesArray : Release
  | deleteWorkspaceBwdFilterSizesArray : Release
  deriving DecidableEq

/-- `CuDNNConvolutionLayer::~CuDNNConvolutionLayer` (non-frontend branch,
lines 362-402), as the sequence of release actions it performs: nothing
when `handles_setup_` is false; otherwise the per-input descriptor
destructions, the bias descriptor when present, the filter descriptor,
the per-group stream/handle destructions, the workspace free and the
array deletions, in source order. -/
def destructor (cfg : BaseConfig) (s : CuDNNConvState) : List Release :=
  if !s.handles_setup_ then [] else
    let G := cfg.group_ * CUDNN_STREAMS_PER_GROUP
    ((List.range s.bottom_descs_.length).flatMap fun i =>
      [Release.destroyBottomDesc i, Release.destroyTopDesc i,
       Release.destroyConvDesc i]) ++
    (if cfg.bias_term_ then [Release.destroyBiasDesc] else []) ++
    [Release.destroyFilterDesc] ++
    ((List.range G).flatMap fun g =>
      [Release.streamDestroy g, Release.handleDestroy g]) ++
    [Release.freeWorkspaceData,
     Release.deleteStreamArray, Release.deleteHandleArray,
     Release.deleteFwdAlgoArray, Release.deleteBwdFilterAlgoArray,
     Release.deleteBwdDataAlgoArray,
     Release.deleteWorkspaceFwdSizesArray,
     Release.deleteWorkspaceBwdDataSizesArray,
     Release.deleteWorkspaceBwdFilterSizesArray]

/-- The workspace required by a cuDNN-8 Reshape call on pre-state `s`:
`max_workspace * (group_ * CUDNN_STREAMS_PER_GROUP)` computed from the
sizes the selection phase produces. -/
def requiredWorkspace (env : CudnnEnv) (cfg : BaseConfig) (B : Nat)
    (height width height_out width_out : Nat)
    (s : CuDNNConvState) : Nat :=
  maxWorkspace B (reshapePreV8 env cfg B height width height_out width_out s) *
    (cfg.group_ * CUDNN_STREAMS_PER_GROUP)

/-- A cuDNN-8 Reshape call is successful when either no reallocation is
needed or the `cudaMalloc` for the required total succeeds. -/
def reshapeAllocOk (env : CudnnEnv) (cfg : BaseConfig) (B : Nat)
    (height width height_out width_out : Nat)
    (s : CuDNNConvState) : Prop :=
  requiredWorkspace env cfg B height width height_out width_out s ≤
      s.workspaceSizeInBytes ∨
    (env.cudaMalloc
      (requiredWorkspace env cfg B height width height_out width_out s)).isSome

/-- The workspace layout invariant maintained across successful Reshape
calls: the per-group pointers are offsets from the shared base at a common
stride `m`, and the recorded allocation size is `G * m`. -/
def WorkspaceInv (G : Nat) (s : CuDNNConvState) : Prop :=
  ∃ m, s.workspaceSizeInBytes = G * m ∧
    ∀ g, g < G → s.workspace g = s.workspaceData + g * m

/-- The inputs of one Reshape call (vendor environment and blob shapes). -/
structure ReshapeCall where
  env : CudnnEnv
  B : Nat
  height : Nat
  width : Nat
  height_out : Nat
  width_out : Nat

/-- Run a sequence of cuDNN-8 Reshape bodies. -/
def runReshapes (cfg : BaseConfig) : List ReshapeCall → CuDNNConvState → CuDNNConvState
  | [], s => s
  | c :: rest, s =>
      runReshapes cfg rest
        (reshapeBodyV8 c.env cfg c.B c.height c.width c.height_out c.width_out s)

/-- Every Reshape call of the sequence allocates successfully (relative to
the state it actually runs on). -/
def allAllocOk (cfg : BaseConfig) : List ReshapeCall → CuDNNConvState → Prop
  | [], _ => True
  | c :: rest, s =>
      reshapeAllocOk c.env cfg c.B c.height c.width c.height_out c.width_out s ∧
      allAllocOk cfg rest
        (reshapeBodyV8 c.env cfg c.B c.height c.width c.height_out c.width_out s)

/-- The workspace layout guaranteed after a successful Reshape: a common
stride `m` at least `maxW` such that the recorded size is `G * m`, every
per-group pointer is the shared base plus `g * m`, the `G` per-group
regions of `maxW` bytes are pairwise disjoint and all lie within the
single recorded allocation. -/
def WorkspaceLayout (G maxW : Nat) (s : CuDNNConvState) : Prop :=
  ∃ m, maxW ≤ m ∧ s.workspaceSizeInBytes = G * m ∧
    (∀ g, g < G → s.workspace g = s.workspaceData + g * m) ∧
    (∀ g1 g2, g1 < g2 → g2 < G → s.workspace g1 + maxW ≤ s.workspace g2) ∧
    (∀ g, g < G → s.workspace g + maxW ≤ s.workspaceData + s.workspaceSizeInBytes)

/-- A concrete layer configuration with two groups, used as test input:
8 output channels, 4 input channels, bias, 2 spatial axes. -/
def cfgA : BaseConfig :=
  { group_ := 2, num_output_ := 8, channels_ := 4, bias_term_ := true,
    num_ := 1, num_spatial_axes_ := 2, bottom_dim_ := 64, top_dim_ := 128,
    out_spatial_dim_ := 16, kernel_h := 3, kernel_w := 3,
    pad_h := 1, pad_w := 1, stride_h := 1, stride_w := 1 }

/-- `cfgA` with 3 spatial axes (an input the spatial-axes check rejects). -/
def cfgAxes3 : BaseConfig := { cfgA with num_spatial_axes_ := 3 }

/-- A concrete vendor environment: the forward heuristic offers one
acceptable algorithm needing 100 bytes, backward-data one needing 0 bytes,
the (pre-8 style) backward-filter query answers algorithm 3 with 7 bytes,
and `cudaMalloc` succeeds at base address 1000. -/
def envA : CudnnEnv :=
  { free_memory := 1000000, total_memory := 2000000,
    fwdAlgoPref := fun _ => [⟨0, 1, 100⟩],
    bwdDataAlgoPref := fun _ => [⟨0, 1, 0⟩],
    bwdFilterAlgoPref := fun _ => [⟨0, 3, 7⟩],
    getConvolutionForwardAlgorithm := fun _ _ => 2,
    getConvolutionForwardWorkspaceSize := fun _ _ => 11,
    getConvolutionBackwardFilterAlgorithm := fun _ _ => 3,
    getConvolutionBackwardFilterWorkspaceSize := fun _ _ => 7,
    getConvolutionBackwardDataAlgorithm := fun _ _ => 4,
    getConvolutionBackwardDataWorkspaceSize := fun _ _ => 13,
    cudaMalloc := fun _ => some 1000,
    streamCreate := fun g => 100 + g,
    cudnnCreate := fun g => 200 + g }

/-- `envA` with a smaller forward workspace need (50 bytes). -/
def envB : CudnnEnv :=
  { envA with fwdAlgoPref := fun _ => [⟨0, 1, 50⟩] }

/-- `envA` with failing `cudaMalloc` and 5-byte algorithm choices. -/
def envF : CudnnEnv :=
  { envA with cudaMalloc := fun _ => none,
              fwdAlgoPref := fun _ => [⟨0, 0, 5⟩],
              bwdDataAlgoPref := fun _ => [⟨0, 0, 5⟩] }

/-- An environment whose preference lists exercise every rejection reason:
bad status, Winograd algorithms and memory not below the free amount. -/
def envC : CudnnEnv :=
  { envA with
    fwdAlgoPref := fun _ => [⟨1, 0, 10⟩, ⟨0, 7, 10⟩, ⟨0, 2, 42⟩],
    bwdDataAlgoPref := fun _ =>
      [⟨0, 4, 1⟩, ⟨0, 5, 1⟩, ⟨0, 1, 1000000⟩, ⟨0, 3, 2⟩] }

/-- An environment on which no preference entry qualifies (bad status for
the forward list, empty backward-data list). -/
def envN : CudnnEnv :=
  { envA with fwdAlgoPref := fun _ => [⟨2, 0, 5⟩],
              bwdDataAlgoPref := fun _ => [] }

/-- The state of the concrete layer right after `LayerSetUp` with one
bottom blob. -/
def sA : CuDNNConvState := layerSetUp envA cfgA 1

/-- `sA` after a first successful Reshape under `envA` (reallocates to a
400-byte workspace at base 1000, per-group stride 200). -/
def sA1 : CuDNNConvState := reshapeBodyV8 envA cfgA 1 4 4 4 4 sA

/-- `sA1` after a second successful Reshape under `envB` (the smaller
required workspace skips reallocation, keeping the stride-200 pointers). -/
def sA2 : CuDNNConvState := reshapeBodyV8 envB cfgA 1 4 4 4 4 sA1

/-- The first concrete Reshape call as a `ReshapeCall` record. -/
def callA : ReshapeCall :=
  { env := envA, B := 1, height := 4, width := 4, height_out := 4, width_out := 4 }

theorem setFirst_length {α : Type} (n : Nat) (v : α) (l : List α) :
    (setFirst n v l).length = l.length := by
  induction l generalizing n with
  | nil => cases n <;> rfl
  | cons a t ih =>
    cases n with
    | zero => rfl
    | succ m => simpa [setFirst] using ih m

theorem setFirst_getD {α : Type} (n : Nat) (v : α) (l : List α) (i : Nat) (d : α)
    (hi : i < n) (hl : i < l.length) :
    (setFirst n v l).getD i d = v := by
  induction l generalizing n i with
  | nil => simp at hl
  | cons a t ih =>
    cases n with
    | zero => omega
    | succ m =>
      cases i with
      | zero => rfl
      | succ j =>
        simpa [setFirst] using ih m j (by omega) (by simpa using hl)

theorem find?_eq_of_first {α : Type} (p : α → Bool) (l : List α) (n : Nat)
    (hn : n < l.length) (hp : p (l.get ⟨n, hn⟩) = true)
    (hmin : ∀ k (hk : k < l.length), k < n → p (l.get ⟨k, hk⟩) = false) :
    l.find? p = some (l.get ⟨n, hn⟩) := by
  induction l generalizing n with
  | nil => simp at hn
  | cons a t ih =>
    cases n with
    | zero => simpa [List.find?_cons] using hp ▸ rfl
    | succ m =>
      have ha : p a = false := hmin 0 (by simp) (Nat.succ_pos m)
      have hm : m < t.length := by simpa using hn
      have := ih m hm hp
        (fun k hk hkm => hmin (k + 1) (by simpa using hk) (by omega))
      simpa [List.find?_cons, ha] using this

theorem find?_eq_none_of_all {α : Type} (p : α → Bool) (l : List α)
    (h : ∀ k (hk : k < l.length), p (l.get ⟨k, hk⟩) = false) :
    l.find? p = none := by
  induction l with
  | nil => rfl
  | cons a t ih =>
    have ha : p a = false := h 0 (by simp)
    have := ih (fun k hk => h (k + 1) (by simpa using hk))
    simpa [List.find?_cons, ha] using this

theorem getD_map_range {α : Type} (f : Nat → α) (G g : Nat) (hg : g < G) (d : α) :
    ((List.range G).map f).getD g d = f g := by
  rw [List.getD_eq_getElem?_getD]
  simp [List.getElem?_map, List.getElem?_range, hg]

theorem setBiasDesc_fwd_sizes (cfg : BaseConfig) (s : CuDNNConvState) :
    (setBiasDesc cfg s).workspace_fwd_sizes_ = s.workspace_fwd_sizes_ := by
  unfold setBiasDesc; split <;> rfl

theorem setBiasDesc_bwd_data_sizes (cfg : BaseConfig) (s : CuDNNConvState) :
    (setBiasDesc cfg s).workspace_bwd_data_sizes_ = s.workspace_bwd_data_sizes_ := by
  unfold setBiasDesc; split <;> rfl

theorem setBiasDesc_bwd_filter_sizes (cfg : BaseConfig) (s : CuDNNConvState) :
    (setBiasDesc cfg s).workspace_bwd_filter_sizes_ = s.workspace_bwd_filter_sizes_ := by
  unfold setBiasDesc; split <;> rfl

theorem setBiasDesc_workspaceSize (cfg : BaseConfig) (s : CuDNNConvState) :
    (setBiasDesc cfg s).workspaceSizeInBytes = s.workspaceSizeInBytes := by
  unfold setBiasDesc; split <;> rfl

theorem setBiasDesc_workspaceData (cfg : BaseConfig) (s : CuDNNConvState) :
    (setBiasDesc cfg s).workspaceData = s.workspaceData := by
  unfold setBiasDesc; split <;> rfl

theorem setBiasDesc_workspace (cfg : BaseConfig) (s : CuDNNConvState) :
    (setBiasDesc cfg s).workspace = s.workspace := by
  unfold setBiasDesc; split <;> rfl

theorem setBiasDesc_bottom_descs (cfg : BaseConfig) (s : CuDNNConvState) :
    (setBiasDesc cfg s).bottom_descs_ = s.bottom_descs_ := by
  unfold setBiasDesc; split <;> rfl

theorem setBiasDesc_top_descs (cfg : BaseConfig) (s : CuDNNConvState) :
    (setBiasDesc cfg s).top_descs_ = s.top_descs_ := by
  unfold setBiasDesc; split <;> rfl

theorem setBiasDesc_conv_descs (cfg : BaseConfig) (s : CuDNNConvState) :
    (setBiasDesc cfg s).conv_descs_ = s.conv_descs_ := by
  unfold setBiasDesc; split <;> rfl

theorem setBiasDesc_bottom_offset (cfg : BaseConfig) (s : CuDNNConvState) :
    (setBiasDesc cfg s).bottom_offset_ = s.bottom_offset_ := by
  unfold setBiasDesc; split <;> rfl

theorem setBiasDesc_top_offset (cfg : BaseConfig) (s : CuDNNConvState) :
    (setBiasDesc cfg s).top_offset_ = s.top_offset_ := by
  unfold setBiasDesc; split <;> rfl

theorem setBiasDesc_bias_desc_of_true (cfg : BaseConfig) (s : CuDNNConvState)
    (h : cfg.bias_term_ = true) :
    (setBiasDesc cfg s).bias_desc_ =
      setTensor4dDescPacked 1 (cfg.num_output_ / cfg.group_) 1 1 := by
  unfold setBiasDesc; rw [h]; rfl

theorem maxWorkspace_setBiasDesc (B : Nat) (cfg : BaseConfig) (s : CuDNNConvState) :
    maxWorkspace B (setBiasDesc cfg s) = maxWorkspace B s := by
  unfold maxWorkspace totalWorkspaceFwd totalWorkspaceBwdData totalWorkspaceBwdFilter
  rw [setBiasDesc_fwd_sizes, setBiasDesc_bwd_data_sizes, setBiasDesc_bwd_filter_sizes]

theorem allocateWorkspace_of_fits (env : CudnnEnv) (cfg : BaseConfig) (B : Nat)
    (s : CuDNNConvState)
    (hfit : maxWorkspace B s * (cfg.group_ * CUDNN_STREAMS_PER_GROUP) ≤
      s.workspaceSizeInBytes) :
    allocateWorkspace env cfg B s = s := by
  simp only [allocateWorkspace]
  rw [if_neg (Nat.not_lt.mpr hfit)]

theorem allocateWorkspace_of_realloc (env : CudnnEnv) (cfg : BaseConfig) (B : Nat)
    (s : CuDNNConvState) (base : Nat)
    (hlt : s.workspaceSizeInBytes <
      maxWorkspace B s * (cfg.group_ * CUDNN_STREAMS_PER_GROUP))
    (hm : env.cudaMalloc
      (maxWorkspace B s * (cfg.group_ * CUDNN_STREAMS_PER_GROUP)) = some base) :
    allocateWorkspace env cfg B s = { s with
      workspaceSizeInBytes :=
        maxWorkspace B s * (cfg.group_ * CUDNN_STREAMS_PER_GROUP),
      workspaceData := base,
      workspace := fun g =>
        if g < cfg.group_ * CUDNN_STREAMS_PER_GROUP
        then base + g * maxWorkspace B s
        else s.workspace g } := by
  simp only [allocateWorkspace]
  rw [if_pos hlt, hm]

theorem fwdOk_iff (free : Nat) (p : AlgoPerf) :
    fwdOk free p = true ↔ FwdAcceptable free p := by
  simp [fwdOk, FwdAcceptable, Bool.and_eq_true, and_assoc, bne_iff_ne]

theorem bwdDataOk_iff (free : Nat) (p : AlgoPerf) :
    bwdDataOk free p = true ↔ BwdDataAcceptable free p := by
  simp [bwdDataOk, BwdDataAcceptable, Bool.and_eq_true, and_assoc, bne_iff_ne]

theorem allocateWorkspace_descs (env : CudnnEnv) (cfg : BaseConfig) (B : Nat)
    (s : CuDNNConvState) :
    (allocateWorkspace env cfg B s).bottom_descs_ = s.bottom_descs_ ∧
    (allocateWorkspace env cfg B s).top_descs_ = s.top_descs_ ∧
    (allocateWorkspace env cfg B s).conv_descs_ = s.conv_descs_ ∧
    (allocateWorkspace env cfg B s).bias_desc_ = s.bias_desc_ ∧
    (allocateWorkspace env cfg B s).bottom_offset_ = s.bottom_offset_ ∧
    (allocateWorkspace env cfg B s).top_offset_ = s.top_offset_ ∧
    (allocateWorkspace env cfg B s).filter_desc_ = s.filter_desc_ := by
  simp only [allocateWorkspace]
  split
  · split <;> exact ⟨rfl, rfl, rfl, rfl, rfl, rfl, rfl⟩
  · exact ⟨rfl, rfl, rfl, rfl, rfl, rfl, rfl⟩

theorem reshape_step_ws_mono (env : CudnnEnv) (cfg : BaseConfig)
    (B height width height_out width_out : Nat) (s : CuDNNConvState)
    (hOk : reshapeAllocOk env cfg B height width height_out width_out s) :
    s.workspaceSizeInBytes ≤
      (reshapeBodyV8 env cfg B height width height_out width_out s).workspaceSizeInBytes := by
  have hws : (reshapePreV8 env cfg B height width height_out width_out
      s).workspaceSizeInBytes = s.workspaceSizeInBytes := rfl
  have hreq : requiredWorkspace env cfg B height width height_out width_out s =
      maxWorkspace B (reshapePreV8 env cfg B height width height_out width_out s) *
        (cfg.group_ * CUDNN_STREAMS_PER_GROUP) := rfl
  unfold reshapeBodyV8
  rw [setBiasDesc_workspaceSize]
  by_cases hfit : maxWorkspace B
      (reshapePreV8 env cfg B height width height_out width_out s) *
      (cfg.group_ * CUDNN_STREAMS_PER_GROUP) ≤ s.workspaceSizeInBytes
  · rw [allocateWorkspace_of_fits env cfg B _ (by rw [hws]; exact hfit), hws]
  · rcases hOk with hOk | hOk
    · exact absurd (hreq ▸ hOk) hfit
    · obtain ⟨base, hbase⟩ := Option.isSome_iff_exists.mp hOk
      rw [allocateWorkspace_of_realloc env cfg B _ base
        (by rw [hws]; exact Nat.not_le.mp hfit) (by rw [← hreq]; exact hbase)]
      exact le_of_lt (Nat.not_le.mp hfit)

theorem reshape_step_unchanged (env : CudnnEnv) (cfg : BaseConfig)
    (B height width height_out width_out : Nat) (s : CuDNNConvState)
    (hfit : requiredWorkspace env cfg B height width height_out width_out s ≤
      s.workspaceSizeInBytes) :
    (reshapeBodyV8 env cfg B height width height_out width_out s).workspaceSizeInBytes
        = s.workspaceSizeInBytes ∧
    (reshapeBodyV8 env cfg B height width height_out width_out s).workspaceData
        = s.workspaceData ∧
    ∀ g, (reshapeBodyV8 env cfg B height width height_out width_out s).workspace g
        = s.workspace g := by
  have hws : (reshapePreV8 env cfg B height width height_out width_out
      s).workspaceSizeInBytes = s.workspaceSizeInBytes := rfl
  unfold reshapeBodyV8
  rw [allocateWorkspace_of_fits env cfg B _ (by rw [hws]; exact hfit)]
  rw [setBiasDesc_workspaceSize, setBiasDesc_workspaceData, setBiasDesc_workspace]
  exact ⟨hws, rfl, fun g => rfl⟩

theorem workspaceLayout_of (G maxW : Nat) (s : CuDNNConvState) (m : Nat)
    (hm : maxW ≤ m) (hws : s.workspaceSizeInBytes = G * m)
    (hp : ∀ g, g < G → s.workspace g = s.workspaceData + g * m) :
    WorkspaceLayout G maxW s := by
  refine ⟨m, hm, hws, hp, ?_, ?_⟩
  · intro g1 g2 h12 h2
    rw [hp g1 (lt_trans h12 h2), hp g2 h2]
    have h1 : (g1 + 1) * m ≤ g2 * m := Nat.mul_le_mul_right m h12
    have h2' : (g1 + 1) * m = g1 * m + m := Nat.succ_mul g1 m
    omega
  · intro g hg
    rw [hp g hg, hws]
    have h1 : (g + 1) * m ≤ G * m := Nat.mul_le_mul_right m hg
    have h2 : (g + 1) * m = g * m + m := Nat.succ_mul g m
    omega

theorem fwdOk_false_iff (free : Nat) (p : AlgoPerf) :
    fwdOk free p = false ↔ ¬ FwdAcceptable free p := by
  rw [← fwdOk_iff]
  cases fwdOk free p <;> simp

theorem bwdDataOk_false_iff (free : Nat) (p : AlgoPerf) :
    bwdDataOk free p = false ↔ ¬ BwdDataAcceptable free p := by
  rw [← bwdDataOk_iff]
  cases bwdDataOk free p <;> simp

theorem reshapePreV8_fwd_algo (env : CudnnEnv) (cfg : BaseConfig)
    (B height width height_out width_out : Nat) (s : CuDNNConvState)
    (i : Nat) (hi : i < B) :
    (reshapePreV8 env cfg B height width height_out width_out s).fwd_algo_ i =
      match fwdChoice env i with
      | some p => p.algo
      | none => s.fwd_algo_ i := by
  show (if i < B then
    match fwdChoice env i with
    | some p => p.algo
    | none => s.fwd_algo_ i
    else s.fwd_algo_ i) = _
  rw [if_pos hi]

theorem reshapePreV8_fwd_sizes (env : CudnnEnv) (cfg : BaseConfig)
    (B height width height_out width_out : Nat) (s : CuDNNConvState)
    (i : Nat) (hi : i < B) :
    (reshapePreV8 env cfg B height width height_out width_out
        s).workspace_fwd_sizes_ i =
      match fwdChoice env i with
      | some p => p.memory
      | none => s.workspace_fwd_sizes_ i := by
  show (if i < B then
    match fwdChoice env i with
    | some p => p.memory
    | none => s.workspace_fwd_sizes_ i
    else s.workspace_fwd_sizes_ i) = _
  rw [if_pos hi]

theorem reshapePreV8_bwd_filter_algo (env : CudnnEnv) (cfg : BaseConfig)
    (B height width height_out width_out : Nat) (s : CuDNNConvState)
    (i : Nat) (hi : i < B) :
    (reshapePreV8 env cfg B height width height_out width_out
        s).bwd_filter_algo_ i =
      match fwdChoice env i with
      | some _ => CUDNN_CONVOLUTION_BWD_FILTER_ALGO_1
      | none => s.bwd_filter_algo_ i := by
  show (if i < B then
    match fwdChoice env i with
    | some _ => CUDNN_CONVOLUTION_BWD_FILTER_ALGO_1
    | none => s.bwd_filter_algo_ i
    else s.bwd_filter_algo_ i) = _
  rw [if_pos hi]

theorem reshapePreV8_bwd_filter_sizes (env : CudnnEnv) (cfg : BaseConfig)
    (B height width height_out width_out : Nat) (s : CuDNNConvState)
    (i : Nat) (hi : i < B) :
    (reshapePreV8 env cfg B height width height_out width_out
        s).workspace_bwd_filter_sizes_ i =
      match fwdChoice env i with
      | some p => 2 * p.memory
      | none => s.workspace_bwd_filter_sizes_ i := by
  show (if i < B then
    match fwdChoice env i with
    | some p => 2 * p.memory
    | none => s.workspace_bwd_filter_sizes_ i
    else s.workspace_bwd_filter_sizes_ i) = _
  rw [if_pos hi]

theorem reshapePreV8_bwd_data_algo (env : CudnnEnv) (cfg : BaseConfig)
    (B height width height_out width_out : Nat) (s : CuDNNConvState)
    (i : Nat) (hi : i < B) :
    (reshapePreV8 env cfg B height width height_out width_out
        s).bwd_data_algo_ i =
      match bwdDataChoice env i with
      | some p => p.algo
      | none => s.bwd_data_algo_ i := by
  show (if i < B then
    match bwdDataChoice env i with
    | some p => p.algo
    | none => s.bwd_data_algo_ i
    else s.bwd_data_algo_ i) = _
  rw [if_pos hi]

theorem reshapePreV8_bwd_data_sizes (env : CudnnEnv) (cfg : BaseConfig)
    (B height width height_out width_out : Nat) (s : CuDNNConvState)
    (i : Nat) (hi : i < B) :
    (reshapePreV8 env cfg B height width height_out width_out
        s).workspace_bwd_data_sizes_ i =
      match bwdDataChoice env i with
      | some p => p.memory
      | none => s.workspace_bwd_data_sizes_ i := by
  show (if i < B then
    match bwdDataChoice env i with
    | some p => p.memory
    | none => s.workspace_bwd_data_sizes_ i
    else s.workspace_bwd_data_sizes_ i) = _
  rw [if_pos hi]

theorem reshapePreV7_fields (env : CudnnEnv) (cfg : BaseConfig)
    (B height width height_out width_out : Nat) (s : CuDNNConvState)
    (i : Nat) (hi : i < B) :
    (reshapePreV7 env cfg B height width height_out width_out s).fwd_algo_ i =
      env.getConvolutionForwardAlgorithm i workspace_limit_bytes ∧
    (reshapePreV7 env cfg B height width height_out width_out
        s).workspace_fwd_sizes_ i =
      env.getConvolutionForwardWorkspaceSize i
        (env.getConvolutionForwardAlgorithm i workspace_limit_bytes) ∧
    (reshapePreV7 env cfg B height width height_out width_out
        s).bwd_filter_algo_ i =
      env.getConvolutionBackwardFilterAlgorithm i workspace_limit_bytes ∧
    (reshapePreV7 env cfg B height width height_out width_out
        s).workspace_bwd_filter_sizes_ i =
      env.getConvolutionBackwardFilterWorkspaceSize i
        (env.getConvolutionBackwardFilterAlgorithm i workspace_limit_bytes) ∧
    (reshapePreV7 env cfg B height width height_out width_out
        s).bwd_data_algo_ i =
      env.getConvolutionBackwardDataAlgorithm i workspace_limit_bytes ∧
    (reshapePreV7 env cfg B height width height_out width_out
        s).workspace_bwd_data_sizes_ i =
      env.getConvolutionBackwardDataWorkspaceSize i
        (env.getConvolutionBackwardDataAlgorithm i workspace_limit_bytes) := by
  refine ⟨?_, ?_, ?_, ?_, ?_, ?_⟩ <;>
    first
      | (show (if i < B then _ else _) = _; rw [if_pos hi])

/-- C1 (amended): after every successful non-frontend Reshape (one whose
allocation, if any, succeeds) on a layer whose workspace satisfies the
layout invariant — as it does after `LayerSetUp` — the invariant still
holds, `workspaceSizeInBytes` is at least `G * max_workspace` for this
call's `max_workspace`, and the per-group pointers are
`workspaceData + g * m` for a single stride `m ≥ max_workspace` (the
`max_workspace` of the most recent reallocating Reshape), so the `G`
per-group regions of `max_workspace` bytes are pairwise disjoint and lie
within the one shared allocation.  The original claim's stride
`m = max_workspace` of the current call holds only for reallocating calls
(see the counterexample). -/
theorem C1_workspace_partition (env : CudnnEnv) (cfg : BaseConfig)
    (B height width height_out width_out : Nat) (s : CuDNNConvState)
    (hG : 0 < cfg.group_)
    (hInv : WorkspaceInv (cfg.group_ * CUDNN_STREAMS_PER_GROUP) s)
    (hOk : reshapeAllocOk env cfg B height width height_out width_out s) :
    WorkspaceInv (cfg.group_ * CUDNN_STREAMS_PER_GROUP)
      (reshapeBodyV8 env cfg B height width height_out width_out s) ∧
    (cfg.group_ * CUDNN_STREAMS_PER_GROUP) *
        maxWorkspace B (reshapeBodyV8 env cfg B height width height_out width_out s) ≤
      (reshapeBodyV8 env cfg B height width height_out width_out s).workspaceSizeInBytes ∧
    WorkspaceLayout (cfg.group_ * CUDNN_STREAMS_PER_GROUP)
      (maxWorkspace B (reshapeBodyV8 env cfg B height width height_out width_out s))
      (reshapeBodyV8 env cfg B height width height_out width_out s) := by
  have hGpos : 0 < cfg.group_ * CUDNN_STREAMS_PER_GROUP := by
    simpa [CUDNN_STREAMS_PER_GROUP] using hG
  have hws : (reshapePreV8 env cfg B height width height_out width_out
      s).workspaceSizeInBytes = s.workspaceSizeInBytes := rfl
  have hbody : reshapeBodyV8 env cfg B height width height_out width_out s
      = setBiasDesc cfg (allocateWorkspace env cfg B
          (reshapePreV8 env cfg B height width height_out width_out s)) := rfl
  have hreq : requiredWorkspace env cfg B height width height_out width_out s
      = maxWorkspace B (reshapePreV8 env cfg B height width height_out width_out s) *
          (cfg.group_ * CUDNN_STREAMS_PER_GROUP) := rfl
  by_cases hfit : maxWorkspace B
      (reshapePreV8 env cfg B height width height_out width_out s) *
      (cfg.group_ * CUDNN_STREAMS_PER_GROUP) ≤ s.workspaceSizeInBytes
  · -- no reallocation: everything is as the invariant left it
    have halloc : allocateWorkspace env cfg B
        (reshapePreV8 env cfg B height width height_out width_out s)
        = reshapePreV8 env cfg B height width height_out width_out s :=
      allocateWorkspace_of_fits env cfg B _ (by rw [hws]; exact hfit)
    have hmaxeq : maxWorkspace B
        (reshapeBodyV8 env cfg B height width height_out width_out s)
        = maxWorkspace B (reshapePreV8 env cfg B height width height_out width_out s) := by
      rw [hbody, halloc, maxWorkspace_setBiasDesc]
    obtain ⟨m0, hm0ws, hm0p⟩ := hInv
    have hmle : maxWorkspace B
        (reshapePreV8 env cfg B height width height_out width_out s) ≤ m0 := by
      have h1 := hfit
      rw [hm0ws, Nat.mul_comm] at h1
      exact Nat.le_of_mul_le_mul_left h1 hGpos
    have hws' : (reshapeBodyV8 env cfg B height width height_out width_out
        s).workspaceSizeInBytes = (cfg.group_ * CUDNN_STREAMS_PER_GROUP) * m0 := by
      rw [hbody, halloc, setBiasDesc_workspaceSize, hws]
      exact hm0ws
    have hp' : ∀ g, g < cfg.group_ * CUDNN_STREAMS_PER_GROUP →
        (reshapeBodyV8 env cfg B height width height_out width_out s).workspace g =
        (reshapeBodyV8 env cfg B height width height_out width_out s).workspaceData +
          g * m0 := by
      intro g hg
      rw [hbody, halloc, setBiasDesc_workspace, setBiasDesc_workspaceData]
      exact hm0p g hg
    have hle' : maxWorkspace B
        (reshapeBodyV8 env cfg B height width height_out width_out s) ≤ m0 := by
      rw [hmaxeq]
      exact hmle
    exact ⟨⟨m0, hws', hp'⟩,
      by rw [hws']; exact Nat.mul_le_mul_left _ hle',
      workspaceLayout_of _ _ _ m0 hle' hws' hp'⟩
  · -- reallocation: the allocation must succeed, giving a fresh layout
    obtain ⟨base, hbase⟩ : ∃ b, env.cudaMalloc
        (maxWorkspace B (reshapePreV8 env cfg B height width height_out width_out s) *
          (cfg.group_ * CUDNN_STREAMS_PER_GROUP)) = some b := by
      rcases hOk with h | h
      · exact absurd (hreq ▸ h) hfit
      · rw [hreq] at h
        exact Option.isSome_iff_exists.mp h
    have halloc := allocateWorkspace_of_realloc env cfg B
      (reshapePreV8 env cfg B height width height_out width_out s) base
      (by rw [hws]; exact Nat.not_le.mp hfit) hbase
    have hmaxeq : maxWorkspace B
        (reshapeBodyV8 env cfg B height width height_out width_out s)
        = maxWorkspace B (reshapePreV8 env cfg B height width height_out width_out s) := by
      rw [hbody, halloc, maxWorkspace_setBiasDesc]
      rfl
    have hws' : (reshapeBodyV8 env cfg B height width height_out width_out
        s).workspaceSizeInBytes = (cfg.group_ * CUDNN_STREAMS_PER_GROUP) *
        maxWorkspace B (reshapePreV8 env cfg B height width height_out width_out s) := by
      rw [hbody, halloc, setBiasDesc_workspaceSize]
      exact Nat.mul_comm _ _
    have hp' : ∀ g, g < cfg.group_ * CUDNN_STREAMS_PER_GROUP →
        (reshapeBodyV8 env cfg B height width height_out width_out s).workspace g =
        (reshapeBodyV8 env cfg B height width height_out width_out s).workspaceData +
          g * maxWorkspace B
            (reshapePreV8 env cfg B height width height_out width_out s) := by
      intro g hg
      rw [hbody, halloc, setBiasDesc_workspace, setBiasDesc_workspaceData]
      show (if g < cfg.group_ * CUDNN_STREAMS_PER_GROUP
        then base + g * maxWorkspace B
          (reshapePreV8 env cfg B height width height_out width_out s)
        else (reshapePreV8 env cfg B height width height_out width_out
          s).workspace g) = base + g * maxWorkspace B
          (reshapePreV8 env cfg B height width height_out width_out s)
      rw [if_pos hg]
    have hle' : maxWorkspace B
        (reshapeBodyV8 env cfg B height width height_out width_out s) ≤
        maxWorkspace B (reshapePreV8 env cfg B height width height_out width_out s) :=
      le_of_eq hmaxeq
    exact ⟨⟨maxWorkspace B (reshapePreV8 env cfg B height width height_out width_out s),
        hws', hp'⟩,
      by rw [hws']; exact Nat.mul_le_mul_left _ hle',
      workspaceLayout_of _ _ _ _ hle' hws' hp'⟩

/-- C1 witness: the concrete first Reshape under `envA` satisfies the
hypotheses and hence the amended layout. -/
theorem C1_workspace_partition_witness :
    0 < cfgA.group_ ∧
    WorkspaceInv (cfgA.group_ * CUDNN_STREAMS_PER_GROUP) sA ∧
    reshapeAllocOk envA cfgA 1 4 4 4 4 sA ∧
    (WorkspaceInv (cfgA.group_ * CUDNN_STREAMS_PER_GROUP) sA1 ∧
     (cfgA.group_ * CUDNN_STREAMS_PER_GROUP) * maxWorkspace 1 sA1 ≤
       sA1.workspaceSizeInBytes ∧
     WorkspaceLayout (cfgA.group_ * CUDNN_STREAMS_PER_GROUP) (maxWorkspace 1 sA1) sA1) :=
  ⟨by decide, ⟨0, by decide, by decide⟩, Or.inr (by decide),
   C1_workspace_partition envA cfgA 1 4 4 4 4 sA (by decide)
     ⟨0, by decide, by decide⟩ (Or.inr (by decide))⟩

/-- C1 counterexample: two successful Reshape calls in a row, the second
with a smaller `max_workspace` (100 instead of 200).  The second call skips
reallocation, so `workspace[1]` keeps the old stride-200 offset and is NOT
`workspaceData + 1 * max_workspace` for the current call's `max_workspace`,
refuting the claim's per-call pointer equation. -/
theorem C1_workspace_partition_cex :
    reshapeAllocOk envA cfgA 1 4 4 4 4 sA ∧
    reshapeAllocOk envB cfgA 1 4 4 4 4 sA1 ∧
    1 < cfgA.group_ * CUDNN_STREAMS_PER_GROUP ∧
    sA2.workspace 1 ≠ sA2.workspaceData + 1 * maxWorkspace 1 sA2 :=
  ⟨Or.inr (by decide), Or.inl (by decide), by decide, by decide⟩

/-- C9: across any sequence of Reshape calls whose allocations all succeed,
`workspaceSizeInBytes` is monotonically non-decreasing; and whenever the
newly required `total_max_workspace` does not exceed the current
`workspaceSizeInBytes`, the Reshape leaves the allocation size, the shared
base pointer and every per-group workspace pointer unchanged. -/
theorem C9_workspace_monotone (cfg : BaseConfig) :
    (∀ (calls : List ReshapeCall) (s : CuDNNConvState),
      allAllocOk cfg calls s →
      s.workspaceSizeInBytes ≤ (runReshapes cfg calls s).workspaceSizeInBytes) ∧
    (∀ (env : CudnnEnv) (B height width height_out width_out : Nat)
        (s : CuDNNConvState),
      requiredWorkspace env cfg B height width height_out width_out s ≤
          s.workspaceSizeInBytes →
      (reshapeBodyV8 env cfg B height width height_out width_out s).workspaceSizeInBytes
          = s.workspaceSizeInBytes ∧
      (reshapeBodyV8 env cfg B height width height_out width_out s).workspaceData
          = s.workspaceData ∧
      ∀ g, (reshapeBodyV8 env cfg B height width height_out width_out s).workspace g
          = s.workspace g) := by
  constructor
  · intro calls
    induction calls with
    | nil => exact fun s _ => le_refl _
    | cons c rest ih =>
      intro s h
      exact le_trans
        (reshape_step_ws_mono c.env cfg c.B c.height c.width c.height_out
          c.width_out s h.1)
        (ih _ h.2)
  · intro env B height width height_out width_out s hfit
    exact reshape_step_unchanged env cfg B height width height_out width_out s hfit

/-- C9 witness: the monotonicity and the no-reallocation stability at the
concrete inputs. -/
theorem C9_workspace_monotone_witness :
    sA.workspaceSizeInBytes ≤ (runReshapes cfgA [callA] sA).workspaceSizeInBytes ∧
    requiredWorkspace envB cfgA 1 4 4 4 4 sA1 ≤ sA1.workspaceSizeInBytes ∧
    (reshapeBodyV8 envB cfgA 1 4 4 4 4 sA1).workspaceSizeInBytes
      = sA1.workspaceSizeInBytes :=
  ⟨(C9_workspace_monotone cfgA).1 [callA] sA ⟨Or.inr (by decide), trivial⟩,
   by decide,
   ((C9_workspace_monotone cfgA).2 envB 1 4 4 4 4 sA1 (by decide)).1⟩

/-- C2 (amended): in the pre-cuDNN-8 Reshape path the three stored
algorithms and their workspace sizes are an exact pass-through of the
vendor's `cudnnGetConvolution*Algorithm`/`*WorkspaceSize` query answers;
in the cuDNN-8 path the forward and backward-data pairs are entries of the
vendor's returned preference lists (so still the vendor's own choices),
while the backward-filter algorithm is the fixed constant
`CUDNN_CONVOLUTION_BWD_FILTER_ALGO_1` with workspace twice the forward
workspace — not a vendor query result (see the counterexample). -/
theorem C2_algo_passthrough (env : CudnnEnv) (cfg : BaseConfig)
    (B height width height_out width_out : Nat) (s : CuDNNConvState)
    (i : Nat) (hi : i < B) :
    ((reshapePreV7 env cfg B height width height_out width_out s).fwd_algo_ i =
        env.getConvolutionForwardAlgorithm i workspace_limit_bytes ∧
      (reshapePreV7 env cfg B height width height_out width_out
          s).workspace_fwd_sizes_ i =
        env.getConvolutionForwardWorkspaceSize i
          ((reshapePreV7 env cfg B height width height_out width_out
            s).fwd_algo_ i) ∧
      (reshapePreV7 env cfg B height width height_out width_out
          s).bwd_filter_algo_ i =
        env.getConvolutionBackwardFilterAlgorithm i workspace_limit_bytes ∧
      (reshapePreV7 env cfg B height width height_out width_out
          s).workspace_bwd_filter_sizes_ i =
        env.getConvolutionBackwardFilterWorkspaceSize i
          ((reshapePreV7 env cfg B height width height_out width_out
            s).bwd_filter_algo_ i) ∧
      (reshapePreV7 env cfg B height width height_out width_out
          s).bwd_data_algo_ i =
        env.getConvolutionBackwardDataAlgorithm i workspace_limit_bytes ∧
      (reshapePreV7 env cfg B height width height_out width_out
          s).workspace_bwd_data_sizes_ i =
        env.getConvolutionBackwardDataWorkspaceSize i
          ((reshapePreV7 env cfg B height width height_out width_out
            s).bwd_data_algo_ i)) ∧
    (∀ p, fwdChoice env i = some p →
      p ∈ (env.fwdAlgoPref i).take 4 ∧
      (reshapePreV8 env cfg B height width height_out width_out s).fwd_algo_ i =
        p.algo ∧
      (reshapePreV8 env cfg B height width height_out width_out
          s).workspace_fwd_sizes_ i = p.memory ∧
      (reshapePreV8 env cfg B height width height_out width_out
          s).bwd_filter_algo_ i = CUDNN_CONVOLUTION_BWD_FILTER_ALGO_1 ∧
      (reshapePreV8 env cfg B height width height_out width_out
          s).workspace_bwd_filter_sizes_ i =
        2 * (reshapePreV8 env cfg B height width height_out width_out
          s).workspace_fwd_sizes_ i) ∧
    (∀ p, bwdDataChoice env i = some p →
      p ∈ (env.bwdDataAlgoPref i).take 4 ∧
      (reshapePreV8 env cfg B height width height_out width_out
          s).bwd_data_algo_ i = p.algo ∧
      (reshapePreV8 env cfg B height width height_out width_out
          s).workspace_bwd_data_sizes_ i = p.memory) := by
  obtain ⟨h1, h2, h3, h4, h5, h6⟩ :=
    reshapePreV7_fields env cfg B height width height_out width_out s i hi
  refine ⟨⟨h1, ?_, h3, ?_, h5, ?_⟩, ?_, ?_⟩
  · rw [h2, h1]
  · rw [h4, h3]
  · rw [h6, h5]
  · intro p hp
    refine ⟨List.mem_of_find?_eq_some hp, ?_, ?_, ?_, ?_⟩
    · rw [reshapePreV8_fwd_algo env cfg B height width height_out width_out s i hi, hp]
    · rw [reshapePreV8_fwd_sizes env cfg B height width height_out width_out s i hi, hp]
    · rw [reshapePreV8_bwd_filter_algo env cfg B height width height_out width_out s i hi, hp]
    · rw [reshapePreV8_bwd_filter_sizes env cfg B height width height_out width_out s i hi,
        reshapePreV8_fwd_sizes env cfg B height width height_out width_out s i hi, hp]
  · intro p hp
    refine ⟨List.mem_of_find?_eq_some hp, ?_, ?_⟩
    · rw [reshapePreV8_bwd_data_algo env cfg B height width height_out width_out s i hi, hp]
    · rw [reshapePreV8_bwd_data_sizes env cfg B height width height_out width_out s i hi, hp]

/-- C2 witness: at the concrete inputs, the pre-8 path stores exactly the
vendor answers (algorithms 2, 3, 4 with sizes 11, 7, 13) and the cuDNN-8
path stores the vendor's forward preference entry. -/
theorem C2_algo_passthrough_witness :
    (reshapePreV7 envA cfgA 1 4 4 4 4 sA).fwd_algo_ 0 = 2 ∧
    (reshapePreV7 envA cfgA 1 4 4 4 4 sA).workspace_fwd_sizes_ 0 = 11 ∧
    (reshapePreV7 envA cfgA 1 4 4 4 4 sA).bwd_filter_algo_ 0 = 3 ∧
    (reshapePreV7 envA cfgA 1 4 4 4 4 sA).workspace_bwd_filter_sizes_ 0 = 7 ∧
    (reshapePreV7 envA cfgA 1 4 4 4 4 sA).bwd_data_algo_ 0 = 4 ∧
    (reshapePreV7 envA cfgA 1 4 4 4 4 sA).workspace_bwd_data_sizes_ 0 = 13 ∧
    ((⟨0, 1, 100⟩ : AlgoPerf) ∈ (envA.fwdAlgoPref 0).take 4 ∧
     (reshapePreV8 envA cfgA 1 4 4 4 4 sA).fwd_algo_ 0 = 1 ∧
     (reshapePreV8 envA cfgA 1 4 4 4 4 sA).workspace_fwd_sizes_ 0 = 100) :=
  ⟨(C2_algo_passthrough envA cfgA 1 4 4 4 4 sA 0 (by decide)).1.1,
   (C2_algo_passthrough envA cfgA 1 4 4 4 4 sA 0 (by decide)).1.2.1,
   (C2_algo_passthrough envA cfgA 1 4 4 4 4 sA 0 (by decide)).1.2.2.1,
   (C2_algo_passthrough envA cfgA 1 4 4 4 4 sA 0 (by decide)).1.2.2.2.1,
   (C2_algo_passthrough envA cfgA 1 4 4 4 4 sA 0 (by decide)).1.2.2.2.2.1,
   (C2_algo_passthrough envA cfgA 1 4 4 4 4 sA 0 (by decide)).1.2.2.2.2.2,
   ((C2_algo_passthrough envA cfgA 1 4 4 4 4 sA 0 (by decide)).2.1
       ⟨0, 1, 100⟩ (by decide)).1,
   ((C2_algo_passthrough envA cfgA 1 4 4 4 4 sA 0 (by decide)).2.1
       ⟨0, 1, 100⟩ (by decide)).2.1,
   ((C2_algo_passthrough envA cfgA 1 4 4 4 4 sA 0 (by decide)).2.1
       ⟨0, 1, 100⟩ (by decide)).2.2.1⟩

/-- C2 counterexample: in the cuDNN-8 Reshape path the stored
backward-filter algorithm is the constant 1 although the vendor's
backward-filter heuristic answers algorithm 3, and the stored
backward-filter workspace (200 = 2 * forward) differs from the size the
vendor reports for the stored algorithm (7), so the pair is not a
pass-through of a vendor query. -/
theorem C2_algo_passthrough_cex :
    (reshapePreV8 envA cfgA 1 4 4 4 4 sA).bwd_filter_algo_ 0 = 1 ∧
    envA.getConvolutionBackwardFilterAlgorithm 0 workspace_limit_bytes = 3 ∧
    (reshapePreV8 envA cfgA 1 4 4 4 4 sA).bwd_filter_algo_ 0 ≠
      envA.getConvolutionBackwardFilterAlgorithm 0 workspace_limit_bytes ∧
    (reshapePreV8 envA cfgA 1 4 4 4 4 sA).workspace_bwd_filter_sizes_ 0 = 200 ∧
    (reshapePreV8 envA cfgA 1 4 4 4 4 sA).workspace_bwd_filter_sizes_ 0 ≠
      envA.getConvolutionBackwardFilterWorkspaceSize 0
        ((reshapePreV8 envA cfgA 1 4 4 4 4 sA).bwd_filter_algo_ 0) := by
  decide

/-- C3: in the cuDNN-8 (non-frontend) Reshape path, for every bottom index
`i < B`, the forward pair is set from the first returned preference entry
with success status, an algorithm other than forward Winograd-nonfused and
memory strictly below the free GPU memory; the backward-data pair from the
first entry with success status, an algorithm that is neither backward-data
Winograd variant and memory strictly below the free memory; and when no
entry qualifies the previously stored algorithm and size are unchanged. -/
theorem C3_v8_algo_selection (env : CudnnEnv) (cfg : BaseConfig)
    (B height width height_out width_out : Nat) (s : CuDNNConvState)
    (i : Nat) (hi : i < B) :
    (∀ n (hn : n < ((env.fwdAlgoPref i).take 4).length),
      FwdAcceptable env.free_memory (((env.fwdAlgoPref i).take 4).get ⟨n, hn⟩) →
      (∀ k (hk : k < ((env.fwdAlgoPref i).take 4).length), k < n →
        ¬ FwdAcceptable env.free_memory
          (((env.fwdAlgoPref i).take 4).get ⟨k, hk⟩)) →
      (reshapePreV8 env cfg B height width height_out width_out s).fwd_algo_ i =
        (((env.fwdAlgoPref i).take 4).get ⟨n, hn⟩).algo ∧
      (reshapePreV8 env cfg B height width height_out width_out
          s).workspace_fwd_sizes_ i =
        (((env.fwdAlgoPref i).take 4).get ⟨n, hn⟩).memory) ∧
    ((∀ n (hn : n < ((env.fwdAlgoPref i).take 4).length),
      ¬ FwdAcceptable env.free_memory
        (((env.fwdAlgoPref i).take 4).get ⟨n, hn⟩)) →
      (reshapePreV8 env cfg B height width height_out width_out s).fwd_algo_ i =
        s.fwd_algo_ i ∧
      (reshapePreV8 env cfg B height width height_out width_out
          s).workspace_fwd_sizes_ i = s.workspace_fwd_sizes_ i) ∧
    (∀ n (hn : n < ((env.bwdDataAlgoPref i).take 4).length),
      BwdDataAcceptable env.free_memory
        (((env.bwdDataAlgoPref i).take 4).get ⟨n, hn⟩) →
      (∀ k (hk : k < ((env.bwdDataAlgoPref i).take 4).length), k < n →
        ¬ BwdDataAcceptable env.free_memory
          (((env.bwdDataAlgoPref i).take 4).get ⟨k, hk⟩)) →
      (reshapePreV8 env cfg B height width height_out width_out
          s).bwd_data_algo_ i =
        (((env.bwdDataAlgoPref i).take 4).get ⟨n, hn⟩).algo ∧
      (reshapePreV8 env cfg B height width height_out width_out
          s).workspace_bwd_data_sizes_ i =
        (((env.bwdDataAlgoPref i).take 4).get ⟨n, hn⟩).memory) ∧
    ((∀ n (hn : n < ((env.bwdDataAlgoPref i).take 4).length),
      ¬ BwdDataAcceptable env.free_memory
        (((env.bwdDataAlgoPref i).take 4).get ⟨n, hn⟩)) →
      (reshapePreV8 env cfg B height width height_out width_out
          s).bwd_data_algo_ i = s.bwd_data_algo_ i ∧
      (reshapePreV8 env cfg B height width height_out width_out
          s).workspace_bwd_data_sizes_ i = s.workspace_bwd_data_sizes_ i) := by
  refine ⟨?_, ?_, ?_, ?_⟩
  · intro n hn hacc hmin
    have hfind : fwdChoice env i =
        some (((env.fwdAlgoPref i).take 4).get ⟨n, hn⟩) :=
      find?_eq_of_first _ _ n hn ((fwdOk_iff _ _).mpr hacc)
        (fun k hk hkn => (fwdOk_false_iff _ _).mpr (hmin k hk hkn))
    constructor
    · rw [reshapePreV8_fwd_algo env cfg B height width height_out width_out s i hi,
        hfind]
    · rw [reshapePreV8_fwd_sizes env cfg B height width height_out width_out s i hi,
        hfind]
  · intro hall
    have hfind : fwdChoice env i = none :=
      find?_eq_none_of_all _ _
        (fun k hk => (fwdOk_false_iff _ _).mpr (hall k hk))
    constructor
    · rw [reshapePreV8_fwd_algo env cfg B height width height_out width_out s i hi,
        hfind]
    · rw [reshapePreV8_fwd_sizes env cfg B height width height_out width_out s i hi,
        hfind]
  · intro n hn hacc hmin
    have hfind : bwdDataChoice env i =
        some (((env.bwdDataAlgoPref i).take 4).get ⟨n, hn⟩) :=
      find?_eq_of_first _ _ n hn ((bwdDataOk_iff _ _).mpr hacc)
        (fun k hk hkn => (bwdDataOk_false_iff _ _).mpr (hmin k hk hkn))
    constructor
    · rw [reshapePreV8_bwd_data_algo env cfg B height width height_out width_out s i hi,
        hfind]
    · rw [reshapePreV8_bwd_data_sizes env cfg B height width height_out width_out s i hi,
        hfind]
  · intro hall
    have hfind : bwdDataChoice env i = none :=
      find?_eq_none_of_all _ _
        (fun k hk => (bwdDataOk_false_iff _ _).mpr (hall k hk))
    constructor
    · rw [reshapePreV8_bwd_data_algo env cfg B height width height_out width_out s i hi,
        hfind]
    · rw [reshapePreV8_bwd_data_sizes env cfg B height width height_out width_out s i hi,
        hfind]

/-- C3 witness: under `envC` the forward list's first two entries are
rejected (bad status, Winograd-nonfused) and the third (algorithm 2,
42 bytes) is taken; the backward-data list's first three are rejected
(Winograd, Winograd-nonfused, memory not below free) and the fourth
(algorithm 3, 2 bytes) is taken; under `envN` nothing qualifies and the
previously stored defaults survive. -/
theorem C3_v8_algo_selection_witness :
    ((reshapePreV8 envC cfgA 1 4 4 4 4 sA).fwd_algo_ 0 = 2 ∧
     (reshapePreV8 envC cfgA 1 4 4 4 4 sA).workspace_fwd_sizes_ 0 = 42) ∧
    ((reshapePreV8 envC cfgA 1 4 4 4 4 sA).bwd_data_algo_ 0 = 3 ∧
     (reshapePreV8 envC cfgA 1 4 4 4 4 sA).workspace_bwd_data_sizes_ 0 = 2) ∧
    ((reshapePreV8 envN cfgA 1 4 4 4 4 sA).fwd_algo_ 0 = sA.fwd_algo_ 0 ∧
     (reshapePreV8 envN cfgA 1 4 4 4 4 sA).workspace_fwd_sizes_ 0 =
       sA.workspace_fwd_sizes_ 0) ∧
    ((reshapePreV8 envN cfgA 1 4 4 4 4 sA).bwd_data_algo_ 0 = sA.bwd_data_algo_ 0 ∧
     (reshapePreV8 envN cfgA 1 4 4 4 4 sA).workspace_bwd_data_sizes_ 0 =
       sA.workspace_bwd_data_sizes_ 0) :=
  ⟨(C3_v8_algo_selection envC cfgA 1 4 4 4 4 sA 0 (by decide)).1 2
      (by decide) (by decide) (by decide),
   (C3_v8_algo_selection envC cfgA 1 4 4 4 4 sA 0 (by decide)).2.2.1 3
      (by decide) (by decide) (by decide),
   (C3_v8_algo_selection envN cfgA 1 4 4 4 4 sA 0 (by decide)).2.1 (by decide),
   (C3_v8_algo_selection envN cfgA 1 4 4 4 4 sA 0 (by decide)).2.2.2 (by decide)⟩

/-- C4: LayerSetUp creates exactly `group_ * CUDNN_STREAMS_PER_GROUP`
streams (with `CUDNN_STREAMS_PER_GROUP = 1`, i.e. exactly `group_`) and as
many handles, binds handle `g` to stream `g`, NULLs every per-group
workspace pointer, initializes every per-input algorithm to 0 with
workspace size 0, sets `bias_offset_ = num_output_ / group_` and marks
`handles_setup_`. -/
theorem C4_layer_setup (env : CudnnEnv) (cfg : BaseConfig) (B : Nat) :
    CUDNN_STREAMS_PER_GROUP = 1 ∧
    cfg.group_ * CUDNN_STREAMS_PER_GROUP = cfg.group_ ∧
    (layerSetUp env cfg B).stream_.length = cfg.group_ * CUDNN_STREAMS_PER_GROUP ∧
    (layerSetUp env cfg B).handle_.length = cfg.group_ * CUDNN_STREAMS_PER_GROUP ∧
    (∀ g, g < cfg.group_ * CUDNN_STREAMS_PER_GROUP →
      (layerSetUp env cfg B).stream_.getD g 0 = env.streamCreate g ∧
      (layerSetUp env cfg B).handle_.getD g 0 = env.cudnnCreate g ∧
      (layerSetUp env cfg B).handleStream.getD g (0, 0) =
        (env.cudnnCreate g, env.streamCreate g) ∧
      (layerSetUp env cfg B).workspace g = 0) ∧
    (∀ i, i < B →
      (layerSetUp env cfg B).fwd_algo_ i = 0 ∧
      (layerSetUp env cfg B).bwd_filter_algo_ i = 0 ∧
      (layerSetUp env cfg B).bwd_data_algo_ i = 0 ∧
      (layerSetUp env cfg B).workspace_fwd_sizes_ i = 0 ∧
      (layerSetUp env cfg B).workspace_bwd_data_sizes_ i = 0 ∧
      (layerSetUp env cfg B).workspace_bwd_filter_sizes_ i = 0) ∧
    (layerSetUp env cfg B).bias_offset_ = cfg.num_output_ / cfg.group_ ∧
    (layerSetUp env cfg B).handles_setup_ = true := by
  refine ⟨rfl, Nat.mul_one _, by simp [layerSetUp], by simp [layerSetUp],
    ?_, ?_, rfl, rfl⟩
  · intro g hg
    exact ⟨getD_map_range _ _ _ hg 0, getD_map_range _ _ _ hg 0,
      getD_map_range _ _ _ hg (0, 0), rfl⟩
  · intro i _
    exact ⟨rfl, rfl, rfl, rfl, rfl, rfl⟩

/-- C4 witness: the concrete two-group layer after `LayerSetUp`. -/
theorem C4_layer_setup_witness :
    sA.stream_.length = 2 ∧
    sA.handle_.length = 2 ∧
    sA.handleStream.getD 1 (0, 0) = (201, 101) ∧
    sA.workspace 1 = 0 ∧
    sA.fwd_algo_ 0 = 0 ∧
    sA.bias_offset_ = 4 ∧
    sA.handles_setup_ = true :=
  ⟨(C4_layer_setup envA cfgA 1).2.2.1,
   (C4_layer_setup envA cfgA 1).2.2.2.1,
   ((C4_layer_setup envA cfgA 1).2.2.2.2.1 1 (by decide)).2.2.1,
   ((C4_layer_setup envA cfgA 1).2.2.2.2.1 1 (by decide)).2.2.2,
   ((C4_layer_setup envA cfgA 1).2.2.2.2.2.1 0 (by decide)).1,
   (C4_layer_setup envA cfgA 1).2.2.2.2.2.2.1,
   (C4_layer_setup envA cfgA 1).2.2.2.2.2.2.2⟩

/-- C5: on a layer whose handles were set up, the destructor performs every
release: the per-input bottom/top/convolution descriptor destructions, the
bias descriptor when present, the filter descriptor, every per-group
stream and handle destruction, the shared workspace free, and the deletion
of the stream, handle, algorithm and workspace-size arrays; when
`handles_setup_` is false it releases nothing. -/
theorem C5_teardown (cfg : BaseConfig) (s : CuDNNConvState) :
    (s.handles_setup_ = true →
      (∀ i, i < s.bottom_descs_.length →
        Release.destroyBottomDesc i ∈ destructor cfg s ∧
        Release.destroyTopDesc i ∈ destructor cfg s ∧
        Release.destroyConvDesc i ∈ destructor cfg s) ∧
      (cfg.bias_term_ = true → Release.destroyBiasDesc ∈ destructor cfg s) ∧
      Release.destroyFilterDesc ∈ destructor cfg s ∧
      (∀ g, g < cfg.group_ * CUDNN_STREAMS_PER_GROUP →
        Release.streamDestroy g ∈ destructor cfg s ∧
        Release.handleDestroy g ∈ destructor cfg s) ∧
      Release.freeWorkspaceData ∈ destructor cfg s ∧
      Release.deleteStreamArray ∈ destructor cfg s ∧
      Release.deleteHandleArray ∈ destructor cfg s ∧
      Release.deleteFwdAlgoArray ∈ destructor cfg s ∧
      Release.deleteBwdFilterAlgoArray ∈ destructor cfg s ∧
      Release.deleteBwdDataAlgoArray ∈ destructor cfg s ∧
      Release.deleteWorkspaceFwdSizesArray ∈ destructor cfg s ∧
      Release.deleteWorkspaceBwdDataSizesArray ∈ destructor cfg s ∧
      Release.deleteWorkspaceBwdFilterSizesArray ∈ destructor cfg s) ∧
    (s.handles_setup_ = false → destructor cfg s = []) := by
  constructor
  · intro h
    have hd : destructor cfg s =
        ((List.range s.bottom_descs_.length).flatMap fun i =>
          [Release.destroyBottomDesc i, Release.destroyTopDesc i,
           Release.destroyConvDesc i]) ++
        (if cfg.bias_term_ then [Release.destroyBiasDesc] else []) ++
        [Release.destroyFilterDesc] ++
        ((List.range (cfg.group_ * CUDNN_STREAMS_PER_GROUP)).flatMap fun g =>
          [Release.streamDestroy g, Release.handleDestroy g]) ++
        [Release.freeWorkspaceData,
         Release.deleteStreamArray, Release.deleteHandleArray,
         Release.deleteFwdAlgoArray, Release.deleteBwdFilterAlgoArray,
         Release.deleteBwdDataAlgoArray,
         Release.deleteWorkspaceFwdSizesArray,
         Release.deleteWorkspaceBwdDataSizesArray,
         Release.deleteWorkspaceBwdFilterSizesArray] := by
      unfold destructor
      rw [h]
      rfl
    rw [hd]
    refine ⟨?_, ?_, ?_, ?_, ?_, ?_, ?_, ?_, ?_, ?_, ?_, ?_, ?_⟩
    · intro i hi
      have hmem : ∀ r, r ∈ [Release.destroyBottomDesc i, Release.destroyTopDesc i,
          Release.destroyConvDesc i] →
          r ∈ ((List.range s.bottom_descs_.length).flatMap fun j =>
            [Release.destroyBottomDesc j, Release.destroyTopDesc j,
             Release.destroyConvDesc j]) :=
        fun r hr => List.mem_flatMap.mpr ⟨i, List.mem_range.mpr hi, hr⟩
      exact ⟨List.mem_append_left _ (List.mem_append_left _
          (List.mem_append_left _ (List.mem_append_left _ (hmem _ (by simp))))),
        List.mem_append_left _ (List.mem_append_left _
          (List.mem_append_left _ (List.mem_append_left _ (hmem _ (by simp))))),
        List.mem_append_left _ (List.mem_append_left _
          (List.mem_append_left _ (List.mem_append_left _ (hmem _ (by simp)))))⟩
    · intro hb
      exact List.mem_append_left _ (List.mem_append_left _
        (List.mem_append_left _ (List.mem_append_right _ (by rw [hb]; simp))))
    · exact List.mem_append_left _ (List.mem_append_left _
        (List.mem_append_right _ (by simp)))
    · intro g hg
      have hmem : ∀ r, r ∈ [Release.streamDestroy g, Release.handleDestroy g] →
          r ∈ ((List.range (cfg.group_ * CUDNN_STREAMS_PER_GROUP)).flatMap fun j =>
            [Release.streamDestroy j, Release.handleDestroy j]) :=
        fun r hr => List.mem_flatMap.mpr ⟨g, List.mem_range.mpr hg, hr⟩
      exact ⟨List.mem_append_left _ (List.mem_append_right _ (hmem _ (by simp))),
        List.mem_append_left _ (List.mem_append_right _ (hmem _ (by simp)))⟩
    all_goals exact List.mem_append_right _ (by simp)
  · intro h
    unfold destructor
    rw [h]
    rfl

/-- C5 witness: the concrete released-resource list of the two-group layer
with one bottom descriptor contains each expected release, and a layer
without completed setup releases nothing. -/
theorem C5_teardown_witness :
    (Release.destroyBottomDesc 0 ∈ destructor cfgA sA ∧
     Release.destroyTopDesc 0 ∈ destructor cfgA sA ∧
     Release.destroyConvDesc 0 ∈ destructor cfgA sA) ∧
    Release.destroyBiasDesc ∈ destructor cfgA sA ∧
    Release.destroyFilterDesc ∈ destructor cfgA sA ∧
    (Release.streamDestroy 1 ∈ destructor cfgA sA ∧
     Release.handleDestroy 1 ∈ destructor cfgA sA) ∧
    Release.freeWorkspaceData ∈ destructor cfgA sA ∧
    Release.deleteWorkspaceBwdFilterSizesArray ∈ destructor cfgA sA ∧
    destructor cfgA { sA with handles_setup_ := false } = [] :=
  ⟨((C5_teardown cfgA sA).1 (by decide)).1 0 (by decide),
   ((C5_teardown cfgA sA).1 (by decide)).2.1 (by decide),
   ((C5_teardown cfgA sA).1 (by decide)).2.2.1,
   ((C5_teardown cfgA sA).1 (by decide)).2.2.2.1 1 (by decide),
   ((C5_teardown cfgA sA).1 (by decide)).2.2.2.2.1,
   ((C5_teardown cfgA sA).1 (by decide)).2.2.2.2.2.2.2.2.2.2.2.2,
   (C5_teardown cfgA { sA with handles_setup_ := false }).2 rfl⟩

/-- C6: the shapes described to the vendor are per-group: the filter
descriptor from `LayerSetUp` has `num_output_/group_` output channels,
`channels_/group_` input channels and the configured kernel extents; for
every bottom index `i` Reshape sets the bottom descriptor to
`(num_, channels_/group_, height, width)` with strides from the full
channel count, the top descriptor to
`(num_, num_output_/group_, height_out, width_out)`, the convolution
descriptor to the configured pads and strides, the bias descriptor (when
present) to `(1, num_output_/group_, 1, 1)`, and the offsets to
`bottom_dim_/group_` and `top_dim_/group_`. -/
theorem C6_per_group_shapes (env env2 : CudnnEnv) (cfg : BaseConfig)
    (B height width height_out width_out : Nat) (s : CuDNNConvState)
    (i : Nat) (hi : i < B)
    (hbl : i < s.bottom_descs_.length) (htl : i < s.top_descs_.length)
    (hcl : i < s.conv_descs_.length) :
    (layerSetUp env2 cfg B).filter_desc_ =
      ⟨cfg.num_output_ / cfg.group_, cfg.channels_ / cfg.group_,
       cfg.kernel_h, cfg.kernel_w⟩ ∧
    (reshapeBodyV8 env cfg B height width height_out width_out
        s).bottom_descs_.getD i default =
      ⟨cfg.num_, cfg.channels_ / cfg.group_, height, width,
       cfg.channels_ * height * width, height * width, width, 1⟩ ∧
    (reshapeBodyV8 env cfg B height width height_out width_out
        s).top_descs_.getD i default =
      ⟨cfg.num_, cfg.num_output_ / cfg.group_, height_out, width_out,
       cfg.num_output_ * cfg.out_spatial_dim_, cfg.out_spatial_dim_,
       width_out, 1⟩ ∧
    (reshapeBodyV8 env cfg B height width height_out width_out
        s).conv_descs_.getD i default =
      ⟨cfg.pad_h, cfg.pad_w, cfg.stride_h, cfg.stride_w⟩ ∧
    (cfg.bias_term_ = true →
      (reshapeBodyV8 env cfg B height width height_out width_out s).bias_desc_.n = 1 ∧
      (reshapeBodyV8 env cfg B height width height_out width_out s).bias_desc_.c =
        cfg.num_output_ / cfg.group_ ∧
      (reshapeBodyV8 env cfg B height width height_out width_out s).bias_desc_.h = 1 ∧
      (reshapeBodyV8 env cfg B height width height_out width_out s).bias_desc_.w = 1) ∧
    (reshapeBodyV8 env cfg B height width height_out width_out s).bottom_offset_ =
      cfg.bottom_dim_ / cfg.group_ ∧
    (reshapeBodyV8 env cfg B height width height_out width_out s).top_offset_ =
      cfg.top_dim_ / cfg.group_ := by
  obtain ⟨hB, hT, hC, hBias, hBo, hTo, _⟩ := allocateWorkspace_descs env cfg B
    (reshapePreV8 env cfg B height width height_out width_out s)
  have hbody : reshapeBodyV8 env cfg B height width height_out width_out s
      = setBiasDesc cfg (allocateWorkspace env cfg B
          (reshapePreV8 env cfg B height width height_out width_out s)) := rfl
  refine ⟨rfl, ?_, ?_, ?_, ?_, ?_, ?_⟩
  · rw [hbody, setBiasDesc_bottom_descs, hB]
    show (setFirst B (mkBottomDesc cfg height width) s.bottom_descs_).getD i default = _
    rw [setFirst_getD B _ _ i default hi hbl]
    rfl
  · rw [hbody, setBiasDesc_top_descs, hT]
    show (setFirst B (mkTopDesc cfg height_out width_out) s.top_descs_).getD i default = _
    rw [setFirst_getD B _ _ i default hi htl]
    rfl
  · rw [hbody, setBiasDesc_conv_descs, hC]
    show (setFirst B (mkConvDesc cfg) s.conv_descs_).getD i default = _
    rw [setFirst_getD B _ _ i default hi hcl]
    rfl
  · intro hb
    rw [hbody, setBiasDesc_bias_desc_of_true cfg _ hb]
    exact ⟨rfl, rfl, rfl, rfl⟩
  · rw [hbody, setBiasDesc_bottom_offset, hBo]
    rfl
  · rw [hbody, setBiasDesc_top_offset, hTo]
    rfl

/-- C6 witness: the concrete per-group descriptor contents for `cfgA`
(4 input channels, 8 output channels, 2 groups, 4x4 spatial extents). -/
theorem C6_per_group_shapes_witness :
    (layerSetUp envA cfgA 1).filter_desc_ = ⟨4, 2, 3, 3⟩ ∧
    (reshapeBodyV8 envA cfgA 1 4 4 4 4 sA).bottom_descs_.getD 0 default =
      ⟨1, 2, 4, 4, 64, 16, 4, 1⟩ ∧
    (reshapeBodyV8 envA cfgA 1 4 4 4 4 sA).top_descs_.getD 0 default =
      ⟨1, 4, 4, 4, 128, 16, 4, 1⟩ ∧
    (reshapeBodyV8 envA cfgA 1 4 4 4 4 sA).bias_desc_.c = 4 ∧
    (reshapeBodyV8 envA cfgA 1 4 4 4 4 sA).bottom_offset_ = 32 ∧
    (reshapeBodyV8 envA cfgA 1 4 4 4 4 sA).top_offset_ = 64 :=
  ⟨(C6_per_group_shapes envA envA cfgA 1 4 4 4 4 sA 0 (by decide)
      (by decide) (by decide) (by decide)).1,
   (C6_per_group_shapes envA envA cfgA 1 4 4 4 4 sA 0 (by decide)
      (by decide) (by decide) (by decide)).2.1,
   (C6_per_group_shapes envA envA cfgA 1 4 4 4 4 sA 0 (by decide)
      (by decide) (by decide) (by decide)).2.2.1,
   ((C6_per_group_shapes envA envA cfgA 1 4 4 4 4 sA 0 (by decide)
      (by decide) (by decide) (by decide)).2.2.2.2.1 (by decide)).2.1,
   (C6_per_group_shapes envA envA cfgA 1 4 4 4 4 sA 0 (by decide)
      (by decide) (by decide) (by decide)).2.2.2.2.2.1,
   (C6_per_group_shapes envA envA cfgA 1 4 4 4 4 sA 0 (by decide)
      (by decide) (by decide) (by decide)).2.2.2.2.2.2⟩

/-- C7: at the failing input (two groups, `cudaMalloc` failing, a 20-byte
total requirement with `max_workspace = 10`), Reshape completes without
error and performs the zero-workspace fallback — all sizes 0, all
algorithms the zero-workspace defaults, base pointer NULL, size 0 — but
the unconditional alias loop (source lines 349-351, despite its comment
"if we succeed in the allocation") then sets
`workspace[1] = NULL + 1 * max_workspace = 10`, a non-NULL dangling
pointer, contradicting the claim's (and the code comment's) "every
per-group workspace pointer ... set to NULL". -/
theorem C7_malloc_fail_fallback :
    reshape_v8 envF cfgA 1 4 4 4 4 (layerSetUp envF cfgA 1) =
      Except.ok (reshapeBodyV8 envF cfgA 1 4 4 4 4 (layerSetUp envF cfgA 1)) ∧
    (envF.cudaMalloc (requiredWorkspace envF cfgA 1 4 4 4 4
      (layerSetUp envF cfgA 1))).isSome = false ∧
    ((reshapeBodyV8 envF cfgA 1 4 4 4 4 (layerSetUp envF cfgA 1)).workspace_fwd_sizes_ 0 = 0 ∧
     (reshapeBodyV8 envF cfgA 1 4 4 4 4 (layerSetUp envF cfgA 1)).workspace_bwd_filter_sizes_ 0 = 0 ∧
     (reshapeBodyV8 envF cfgA 1 4 4 4 4 (layerSetUp envF cfgA 1)).workspace_bwd_data_sizes_ 0 = 0 ∧
     (reshapeBodyV8 envF cfgA 1 4 4 4 4 (layerSetUp envF cfgA 1)).fwd_algo_ 0 =
       CUDNN_CONVOLUTION_FWD_ALGO_IMPLICIT_GEMM ∧
     (reshapeBodyV8 envF cfgA 1 4 4 4 4 (layerSetUp envF cfgA 1)).bwd_filter_algo_ 0 =
       CUDNN_CONVOLUTION_BWD_FILTER_ALGO_0 ∧
     (reshapeBodyV8 envF cfgA 1 4 4 4 4 (layerSetUp envF cfgA 1)).bwd_data_algo_ 0 =
       CUDNN_CONVOLUTION_BWD_DATA_ALGO_0 ∧
     (reshapeBodyV8 envF cfgA 1 4 4 4 4 (layerSetUp envF cfgA 1)).workspaceData = 0 ∧
     (reshapeBodyV8 envF cfgA 1 4 4 4 4 (layerSetUp envF cfgA 1)).workspaceSizeInBytes = 0 ∧
     (reshapeBodyV8 envF cfgA 1 4 4 4 4 (layerSetUp envF cfgA 1)).workspace 0 = 0) ∧
    (reshapeBodyV8 envF cfgA 1 4 4 4 4 (layerSetUp envF cfgA 1)).workspace 1 = 10 ∧
    (reshapeBodyV8 envF cfgA 1 4 4 4 4 (layerSetUp envF cfgA 1)).workspace 1 ≠ 0 :=
  ⟨rfl, by decide, by decide, by decide, by decide⟩

/-- C8: the cuDNN Reshape aborts via the fatal spatial-axes check exactly
when the layer's `num_spatial_axes_` differs from 2, and otherwise runs its
descriptor-setup body to completion. -/
theorem C8_spatial_axes_check (env : CudnnEnv) (cfg : BaseConfig)
    (B height width height_out width_out : Nat) (s : CuDNNConvState) :
    (reshape_v8 env cfg B height width height_out width_out s = Except.error ()
      ↔ cfg.num_spatial_axes_ ≠ 2) ∧
    (reshape_v8 env cfg B height width height_out width_out s =
        Except.ok (reshapeBodyV8 env cfg B height width height_out width_out s)
      ↔ cfg.num_spatial_axes_ = 2) := by
  by_cases h : cfg.num_spatial_axes_ = 2 <;>
    simp [reshape_v8, h]

/-- C8 witness: a 3-spatial-axes layer is rejected, the 2-spatial-axes
layer proceeds. -/
theorem C8_spatial_axes_check_witness :
    reshape_v8 envA cfgAxes3 1 4 4 4 4 sA = Except.error () ∧
    reshape_v8 envA cfgA 1 4 4 4 4 sA =
      Except.ok (reshapeBodyV8 envA cfgA 1 4 4 4 4 sA) :=
  ⟨(C8_spatial_axes_check envA cfgAxes3 1 4 4 4 4 sA).1.mpr (by decide),
   (C8_spatial_axes_check envA cfgA 1 4 4 4 4 sA).2.mpr (by decide)⟩

end Caffe
